import Mathlib

/-!
# Verification of the SynapseStrike decision / learning pipelines

Shallow embedding of the orchestration core of the SynapseStrike repository
(`AIArchitect/backend`): the response-normalization logic of the decision
pipeline (`pipelines/decision.py`), the text-fallback parser, the memory-store
search wrappers (`clients/vector_store.py`), and the learning pipeline
(`pipelines/learning.py`) with its statistics maintenance.

Modelling conventions:
* Python numeric values (`float`, DB `Numeric`/`Decimal`) are modelled as exact
  rationals `ℚ`; all concrete inputs used in the theorems below are dyadic, so
  the rational arithmetic coincides with IEEE double arithmetic there.
* Python's dynamic typing is modelled by the inductive `Py.Val`; operations
  that raise (`TypeError`, `AttributeError`, ...) return `Except String`.
* SQLAlchemy ORM attribute semantics are modelled faithfully: a column default
  (`default=0`) is applied only when a row is INSERTed, not when the Python
  object is constructed, so a freshly constructed `Statistic()` has `none` in
  every counter field while a row read back from the database has the declared
  defaults.
* String case mapping models Python `str.upper`/`str.lower` on the ASCII range
  (all decision keywords are ASCII).
-/

namespace Py

/-- Python values as they appear in parsed-JSON responses: `None`, booleans,
ints, floats (as exact rationals), strings, lists and string-keyed dicts. -/
inductive Val where
  | none
  | bool (b : Bool)
  | int (n : ℤ)
  | float (q : ℚ)
  | str (s : String)
  | list (xs : List Val)
  | dict (xs : List (String × Val))

/-- First-match association-list lookup, modelling Python dict lookup
(dict keys are unique, so first match is the match). -/
def lookupAssoc (xs : List (String × Val)) (k : String) : Option Val :=
  (xs.find? (fun p => p.1 == k)).map (fun p => p.2)

/-- Python `d.get(k, default)` on a dict given by its entry list. -/
def getD (xs : List (String × Val)) (k : String) (d : Val) : Val :=
  match lookupAssoc xs k with
  | some v => v
  | Option.none => d

/-- Python `v.get(k, default)` on an arbitrary value: raises `AttributeError`
when `v` is not a dict. -/
def getAttrD (v : Val) (k : String) (d : Val) : Except String Val :=
  match v with
  | .dict xs => .ok (getD xs k d)
  | _ => .error "AttributeError: object has no attribute get"

/-- Python truthiness of a value. -/
def truthy : Val → Bool
  | .none => false
  | .bool b => b
  | .int n => n != 0
  | .float q => q != 0
  | .str s => s != ""
  | .list xs => !xs.isEmpty
  | .dict xs => !xs.isEmpty

/-- Numeric view of a value for comparisons: Python treats `bool` as an int;
other non-numeric operands make `min`/`max`/`<` raise `TypeError`. -/
def numval : Val → Option ℚ
  | .bool b => some (if b then 1 else 0)
  | .int n => some (n : ℚ)
  | .float q => some q
  | _ => Option.none

/-- Python `min(a, b)`: returns `b` exactly when `b < a`, else `a` (also
preserving the operand's type tag); raises `TypeError` on non-numeric
operands. -/
def pymin (a b : Val) : Except String Val :=
  match numval a, numval b with
  | some x, some y => .ok (if y < x then b else a)
  | _, _ => .error "TypeError: unorderable operands to min"

/-- Python `max(a, b)`: returns `b` exactly when `a < b`, else `a`. -/
def pymax (a b : Val) : Except String Val :=
  match numval a, numval b with
  | some x, some y => .ok (if x < y then b else a)
  | _, _ => .error "TypeError: unorderable operands to max"

/-- ASCII upper-case mapping of a character (Python `str.upper` restricted
to the ASCII range; all decision keywords are ASCII). -/
def asciiUpperChar (c : Char) : Char :=
  if 'a' ≤ c && c ≤ 'z' then Char.ofNat (c.toNat - 32) else c

/-- ASCII upper-case mapping of a string. -/
def asciiUpper (s : String) : String := String.mk (s.data.map asciiUpperChar)

/-- ASCII lower-case mapping of a character (Python `str.lower` restricted
to the ASCII range). -/
def asciiLowerChar (c : Char) : Char :=
  if 'A' ≤ c && c ≤ 'Z' then Char.ofNat (c.toNat + 32) else c

/-- ASCII lower-case mapping of a string. -/
def asciiLower (s : String) : String := String.mk (s.data.map asciiLowerChar)

/-- Python `v.upper()`: only strings have `upper`. -/
def pyUpper : Val → Except String String
  | .str s => .ok (asciiUpper s)
  | _ => .error "AttributeError: object has no attribute upper"

/-- Python `str(v)`; container rendering is abbreviated (no theorem below
depends on the rendering of containers or on float formatting). -/
def pyStr : Val → String
  | .none => "None"
  | .bool true => "True"
  | .bool false => "False"
  | .int n => toString n
  | .float q => toString q
  | .str s => s
  | .list _ => "[...]"
  | .dict _ => "\x7b...\x7d"

/-- Numeric value of a digit character. -/
def digitVal (c : Char) : ℕ := c.toNat - 48

/-- Decimal digits to a natural number. -/
def digitsToNat (l : List Char) : ℕ :=
  l.foldl (fun a c => 10 * a + digitVal c) 0

/-- Fractional part `.d₁…dₙ` as a rational. -/
def fracToRat (l : List Char) : ℚ :=
  (digitsToNat l : ℚ) / (10 : ℚ) ^ l.length

/-- Exponent suffix of a Python float literal: optional sign then digits. -/
def pyExp (m : ℚ) (l : List Char) : Option ℚ :=
  let p : ℤ × List Char :=
    match l with
    | '+' :: r => (1, r)
    | '-' :: r => (-1, r)
    | _ => (1, l)
  let ds := p.2.takeWhile Char.isDigit
  let rest := p.2.dropWhile Char.isDigit
  if ds.isEmpty || !rest.isEmpty then Option.none
  else some (m * (10 : ℚ) ^ (p.1 * (digitsToNat ds : ℤ)))

/-- Mantissa (and optional exponent) of a Python float literal. -/
def pyFloatCore (l : List Char) : Option ℚ :=
  let ip := l.takeWhile Char.isDigit
  let r1 := l.dropWhile Char.isDigit
  match r1 with
  | [] => if ip.isEmpty then Option.none else some (digitsToNat ip)
  | '.' :: r =>
    let fp := r.takeWhile Char.isDigit
    let r2 := r.dropWhile Char.isDigit
    if ip.isEmpty && fp.isEmpty then Option.none
    else
      let base : ℚ := (digitsToNat ip : ℚ) + fracToRat fp
      match r2 with
      | [] => some base
      | c :: r3 => if c = 'e' || c = 'E' then pyExp base r3 else Option.none
  | c :: r3 =>
    if (c = 'e' || c = 'E') && !ip.isEmpty then pyExp (digitsToNat ip) r3
    else Option.none

/-- Python `float(s)` on finite decimal literals: strips surrounding
whitespace, optional sign, `d+[.d*] | .d+`, optional exponent.  (The special
forms `inf`/`nan` and digit-group underscores are outside the rational
model; no theorem below depends on them.)  Returns `none` where Python
raises `ValueError`. -/
def pyFloat (s : String) : Option ℚ :=
  let l := s.trim.toList
  match l with
  | '+' :: r => pyFloatCore r
  | '-' :: r => (pyFloatCore r).map (fun q => -q)
  | _ => pyFloatCore l

end Py

/-! ## Decision pipeline: `DecisionPipeline._normalize_response` -/

/-- Result dict of `_normalize_response`: the source returns a dict with
exactly the keys `decision`, `confidence` (a number) and `reason` (a string). -/
structure NormResult where
  decision : String
  confidence : Py.Val
  reason : String

/-- String-to-float coercion branch of `_normalize_response`: a string
confidence is parsed with `float(...)`, defaulting to 0.5 on `ValueError`;
every other value passes through unchanged. -/
def confCoerce : Py.Val → Py.Val
  | .str s =>
    match Py.pyFloat s with
    | some q => .float q
    | Option.none => .float (1/2)
  | v => v

/-- Embedding of `DecisionPipeline._normalize_response` (decision.py
lines 180-203): upper-case the decision and force it into the two-valued
set, coerce/clamp the confidence via `max(0.0, min(1.0, ·))` with a 0.5
default for a missing key or an unparseable string, and let the reason fall
back from `reason` to `reasoning` to a literal. -/
def normalizeResponse (r : List (String × Py.Val)) : Except String NormResult := do
  let d0 := Py.getD r "decision" (.str "NO_TRADE")
  let dUp ← Py.pyUpper d0
  let decision := if dUp == "TAKE_TRADE" || dUp == "NO_TRADE" then dUp else "NO_TRADE"
  let c0 := Py.getD r "confidence" (.float (1/2))
  let c1 := confCoerce c0
  let cm ← Py.pymin (.float 1) c1
  let confidence ← Py.pymax (.float 0) cm
  let reason := Py.getD r "reason" (Py.getD r "reasoning" (.str "No reasoning provided"))
  pure { decision := decision, confidence := confidence, reason := Py.pyStr reason }

/-- The key `decision` is absent or holds a string (the only inputs on which
`_normalize_response` gets past `.upper()`). -/
def strOrAbsent (o : Option Py.Val) : Prop :=
  o = Option.none ∨ ∃ s, o = some (Py.Val.str s)

/-- Confidence shapes enumerated by the spec: a string, an int, or a float. -/
def numLike (v : Py.Val) : Prop :=
  (∃ s, v = Py.Val.str s) ∨ (∃ n, v = Py.Val.int n) ∨ (∃ x, v = Py.Val.float x)

theorem exc_bind_ok {α β : Type} (a : α) (f : α → Except String β) :
    (Except.ok a : Except String α) >>= f = f a := rfl

theorem exc_bind_err {α β : Type} (e : String) (f : α → Except String β) :
    (Except.error e : Except String α) >>= f = .error e := rfl

theorem exc_map_ok {α β : Type} (f : α → β) (a : α) :
    f <$> (Except.ok a : Except String α) = .ok (f a) := rfl

theorem exc_map_err {α β : Type} (f : α → β) (e : String) :
    f <$> (Except.error e : Except String α) = .error e := rfl

theorem exc_pure {α : Type} (a : α) :
    (pure a : Except String α) = .ok a := rfl

/-- Clamping a float through `max(0.0, min(1.0, x))`. -/
theorem clamp_float (x : ℚ) :
    (Py.pymin (.float 1) (.float x) >>= Py.pymax (.float 0)) =
      .ok (.float (max 0 (min 1 x))) := by
  rcases lt_or_le x 1 with h1 | h1
  · have hmin : Py.pymin (.float 1) (.float x) = .ok (.float x) := by
      simp [Py.pymin, Py.numval, h1]
    rcases lt_or_le 0 x with h2 | h2
    · have hmax : Py.pymax (.float 0) (.float x) = .ok (.float x) := by
        simp [Py.pymax, Py.numval, h2]
      rw [hmin, exc_bind_ok, hmax, min_eq_right h1.le, max_eq_right h2.le]
    · have hmax : Py.pymax (.float 0) (.float x) = .ok (.float 0) := by
        simp [Py.pymax, Py.numval, not_lt.mpr h2]
      rw [hmin, exc_bind_ok, hmax, min_eq_right h1.le, max_eq_left h2]
  · have hmin : Py.pymin (.float 1) (.float x) = .ok (.float 1) := by
      simp [Py.pymin, Py.numval, not_lt.mpr h1]
    have hmax : Py.pymax (.float 0) (.float 1) = .ok (.float 1) := by
      norm_num [Py.pymax, Py.numval]
    rw [hmin, exc_bind_ok, hmax, min_eq_left h1,
      max_eq_right (by norm_num : (0:ℚ) ≤ 1)]

/-- Clamping an int through `max(0.0, min(1.0, n))` always yields a float in
the unit interval (Python returns the `0.0`/`1.0` bound whenever `n` is not
strictly inside it, and no integer is strictly inside). -/
theorem clamp_int (n : ℤ) :
    ∃ q : ℚ, (Py.pymin (.float 1) (.int n) >>= Py.pymax (.float 0)) =
      .ok (.float q) ∧ 0 ≤ q ∧ q ≤ 1 := by
  rcases lt_or_le (n : ℚ) 1 with h1 | h1
  · have hmin : Py.pymin (.float 1) (.int n) = .ok (.int n) := by
      simp [Py.pymin, Py.numval, h1]
    have h2 : ¬ ((0 : ℚ) < (n : ℚ)) := by
      intro h
      have hn1 : n < 1 := by exact_mod_cast h1
      have hn0 : 0 < n := by exact_mod_cast h
      omega
    have hmax : Py.pymax (.float 0) (.int n) = .ok (.float 0) := by
      simp [Py.pymax, Py.numval, h2]
    exact ⟨0, by rw [hmin, exc_bind_ok, hmax], le_refl 0, by norm_num⟩
  · have hmin : Py.pymin (.float 1) (.int n) = .ok (.float 1) := by
      simp [Py.pymin, Py.numval, not_lt.mpr h1]
    have hmax : Py.pymax (.float 0) (.float 1) = .ok (.float 1) := by
      norm_num [Py.pymax, Py.numval]
    exact ⟨1, by rw [hmin, exc_bind_ok, hmax], by norm_num, le_refl 1⟩

/-- Computed form of `normalizeResponse` once the decision value is known to
be the string `sd`. -/
theorem normalizeResponse_str_decision (r : List (String × Py.Val)) (sd : String)
    (hsd : Py.getD r "decision" (.str "NO_TRADE") = .str sd) :
    normalizeResponse r =
      (Py.pymin (.float 1) (confCoerce (Py.getD r "confidence" (.float (1/2)))) >>=
          Py.pymax (.float 0)) >>= fun c =>
        .ok { decision :=
                if Py.asciiUpper sd == "TAKE_TRADE" || Py.asciiUpper sd == "NO_TRADE" then
                  Py.asciiUpper sd else "NO_TRADE",
              confidence := c,
              reason := Py.pyStr (Py.getD r "reason"
                (Py.getD r "reasoning" (.str "No reasoning provided"))) } := by
  rcases hm : Py.pymin (.float 1)
      (confCoerce (Py.getD r "confidence" (.float (1/2)))) with e | cm
  · simp only [normalizeResponse, hsd, Py.pyUpper, exc_bind_ok]
    rw [hm]
    simp only [exc_bind_err]
  · rcases hx : Py.pymax (.float 0) cm with e | c
    · simp only [normalizeResponse, hsd, Py.pyUpper, exc_bind_ok]
      rw [hm]
      simp only [exc_bind_ok]
      rw [hx]
      simp only [exc_map_err, exc_bind_err]
    · simp only [normalizeResponse, hsd, Py.pyUpper, exc_bind_ok]
      rw [hm]
      simp only [exc_bind_ok]
      rw [hx]
      simp only [exc_map_ok, exc_bind_ok, exc_pure]

/-- C1: for every response dict whose `confidence` value is a string, an int,
a float (in or out of range) or absent, and whose `decision` value is a
string or absent, `_normalize_response` returns normally and the returned
confidence is a float in the closed interval `[0, 1]`; it is exactly `0.5`
when the key is missing or the string fails to parse as a float. -/
theorem normalize_confidence_in_unit_interval (r : List (String × Py.Val))
    (hd : strOrAbsent (Py.lookupAssoc r "decision"))
    (hc : numLike (Py.getD r "confidence" (.float (1/2)))) :
    ∃ res q, normalizeResponse r = .ok res ∧ res.confidence = .float q ∧
      0 ≤ q ∧ q ≤ 1 ∧
      ((Py.lookupAssoc r "confidence" = Option.none ∨
          ∃ s, Py.lookupAssoc r "confidence" = some (.str s) ∧
            Py.pyFloat s = Option.none) →
        q = 1/2) := by
  obtain ⟨sd, hsd⟩ : ∃ sd, Py.getD r "decision" (Py.Val.str "NO_TRADE") = .str sd := by
    rcases hd with h | ⟨s, h⟩
    · exact ⟨"NO_TRADE", by simp [Py.getD, h]⟩
    · exact ⟨s, by simp [Py.getD, h]⟩
  rw [normalizeResponse_str_decision r sd hsd]
  rcases hc with ⟨s, hs⟩ | ⟨n, hn⟩ | ⟨x, hx⟩
  · -- string confidence
    rw [hs]
    rcases hp : Py.pyFloat s with _ | q0
    · -- unparseable: defaults to 0.5
      simp only [confCoerce, hp, clamp_float, exc_bind_ok]
      exact ⟨_, 1/2, rfl, by norm_num, by norm_num, by norm_num, fun _ => rfl⟩
    · -- parsed: clamped into [0, 1]
      simp only [confCoerce, hp, clamp_float, exc_bind_ok]
      refine ⟨_, max 0 (min 1 q0), rfl, rfl, le_max_left _ _, ?_, ?_⟩
      · exact max_le (by norm_num) (min_le_left _ _)
      · rintro (h | ⟨s', hs', hps'⟩)
        · rw [Py.getD, h] at hs; cases hs
        · rw [Py.getD, hs'] at hs
          cases hs
          rw [hps'] at hp
          cases hp
  · -- int confidence
    rw [hn]
    obtain ⟨q, hq, h0, h1⟩ := clamp_int n
    simp only [confCoerce, hq, exc_bind_ok]
    refine ⟨_, q, rfl, rfl, h0, h1, ?_⟩
    rintro (h | ⟨s', hs', _⟩)
    · rw [Py.getD, h] at hn; cases hn
    · rw [Py.getD, hs'] at hn; cases hn
  · -- float confidence
    rw [hx]
    simp only [confCoerce, clamp_float, exc_bind_ok]
    refine ⟨_, max 0 (min 1 x), rfl, rfl, le_max_left _ _,
      max_le (by norm_num) (min_le_left _ _), ?_⟩
    rintro (h | ⟨s', hs', _⟩)
    · rw [Py.getD, h] at hx
      cases hx
      norm_num
    · rw [Py.getD, hs'] at hx; cases hx

/-- Witness for C1 at the concrete response `{"confidence": "2.5"}`: the
out-of-range numeric string is clamped to a float in `[0, 1]`. -/
theorem normalize_confidence_in_unit_interval_witness :
    strOrAbsent (Py.lookupAssoc [("confidence", Py.Val.str "2.5")] "decision") ∧
    numLike (Py.getD [("confidence", Py.Val.str "2.5")] "confidence" (.float (1/2))) ∧
    ∃ res q, normalizeResponse [("confidence", Py.Val.str "2.5")] = .ok res ∧
      res.confidence = .float q ∧ 0 ≤ q ∧ q ≤ 1 ∧
      ((Py.lookupAssoc [("confidence", Py.Val.str "2.5")] "confidence" = Option.none ∨
          ∃ s, Py.lookupAssoc [("confidence", Py.Val.str "2.5")] "confidence" =
              some (.str s) ∧ Py.pyFloat s = Option.none) →
        q = 1/2) :=
  ⟨Or.inl rfl, Or.inl ⟨"2.5", rfl⟩,
    normalize_confidence_in_unit_interval _ (Or.inl rfl) (Or.inl ⟨"2.5", rfl⟩)⟩

/-- C2 counterexample: a non-string decision value (here the number `5`)
makes `_normalize_response` raise `AttributeError` at `.upper()` instead of
returning a `NO_TRADE` normalization. -/
theorem normalize_int_decision_raises :
    normalizeResponse [("decision", Py.Val.int 5)] =
      .error "AttributeError: object has no attribute upper" := rfl

/-- C2 (amended): for every response dict whose `decision` value is a string
(or absent, which defaults to the string `NO_TRADE`), if its upper-casing is
not exactly `TAKE_TRADE` then any normalization the function returns has
decision `NO_TRADE`; non-string decision values instead raise at `.upper()`. -/
theorem normalize_decision_forced_no_trade (r : List (String × Py.Val)) (sd : String)
    (hsd : Py.getD r "decision" (.str "NO_TRADE") = .str sd)
    (hne : Py.asciiUpper sd ≠ "TAKE_TRADE")
    (res : NormResult) (hres : normalizeResponse r = .ok res) :
    res.decision = "NO_TRADE" := by
  rw [normalizeResponse_str_decision r sd hsd] at hres
  rcases hclamp : (Py.pymin (.float 1)
      (confCoerce (Py.getD r "confidence" (.float (1/2)))) >>=
        Py.pymax (.float 0)) with e | c
  · rw [hclamp, exc_bind_err] at hres; cases hres
  · rw [hclamp, exc_bind_ok] at hres
    cases hres
    by_cases hno : Py.asciiUpper sd = "NO_TRADE" <;> simp [hne, hno]

/-- Witness for C2's amended theorem at the garbage decision `"hold off"`. -/
theorem normalize_decision_forced_no_trade_witness :
    Py.getD [("decision", Py.Val.str "hold off")] "decision" (.str "NO_TRADE") =
        .str "hold off" ∧
    Py.asciiUpper "hold off" ≠ "TAKE_TRADE" ∧
    ∃ res, normalizeResponse [("decision", Py.Val.str "hold off")] = .ok res ∧
      res.decision = "NO_TRADE" := by
  have hsd : Py.getD [("decision", Py.Val.str "hold off")] "decision"
      (.str "NO_TRADE") = .str "hold off" := rfl
  have hne : Py.asciiUpper "hold off" ≠ "TAKE_TRADE" := by decide
  have h1 := normalizeResponse_str_decision
    [("decision", Py.Val.str "hold off")] "hold off" hsd
  have hc : confCoerce (Py.getD [("decision", Py.Val.str "hold off")]
      "confidence" (.float (1/2))) = .float (1/2) := rfl
  rw [hc, clamp_float, exc_bind_ok] at h1
  exact ⟨hsd, hne, ⟨_, h1,
    normalize_decision_forced_no_trade _ "hold off" hsd hne _ h1⟩⟩

/-! ## Decision pipeline: `DecisionPipeline._parse_text_response` -/

/-- Python `needle in haystack` on character lists. -/
def listContains : List Char → List Char → Bool
  | [], nd => nd.isPrefixOf []
  | h :: t, nd => nd.isPrefixOf (h :: t) || listContains t nd

/-- Characters matched by `[:\s]` in the confidence regex (ASCII whitespace
set of Python `\s`). -/
def isConfSep (c : Char) : Bool :=
  c == ':' || c == ' ' || c == '\t' || c == '\n' || c == '\r' ||
    c.toNat == 11 || c.toNat == 12

/-- Value of the matched group `\d+\.?\d*` (integer digits `d1`, fractional
digits `d2`) under Python `float(...)`. -/
def confDigitsVal (d1 d2 : List Char) : ℚ :=
  (Py.digitsToNat d1 : ℚ) + Py.fracToRat d2

/-- Match of the regex `confidence[:\s]+(\d+\.?\d*)` anchored at the head of
`l`, returning the float value of the group.  The greedy `[:\s]+` never
backtracks into the digit group because digits are not separator
characters. -/
def matchConfAt (l : List Char) : Option ℚ :=
  if ("confidence".toList).isPrefixOf l then
    let rest := l.drop 10
    let seps := rest.takeWhile isConfSep
    let r1 := rest.dropWhile isConfSep
    if seps.isEmpty then Option.none
    else
      let d1 := r1.takeWhile Char.isDigit
      let r2 := r1.dropWhile Char.isDigit
      if d1.isEmpty then Option.none
      else
        match r2 with
        | '.' :: r3 => some (confDigitsVal d1 (r3.takeWhile Char.isDigit))
        | _ => some (Py.digitsToNat d1)
  else Option.none

/-- `re.search` of the confidence regex: leftmost match wins. -/
def findConfidence : List Char → Option ℚ
  | [] => Option.none
  | c :: rest =>
    match matchConfAt (c :: rest) with
    | some q => some q
    | Option.none => findConfidence rest

/-- Result dict of `_parse_text_response`: the source returns a dict with
exactly the keys `decision`, `confidence` and `reason`. -/
structure ParsedText where
  decision : String
  confidence : ℚ
  reason : String

/-- Embedding of `DecisionPipeline._parse_text_response` (decision.py
lines 154-178): decide from lower-cased substring content, extract a
confidence via the `confidence[:\s]+(\d+\.?\d*)` pattern capped at 1.0
(default 0.5), and keep the first 500 characters as the reason. -/
def parseTextResponse (text : String) : ParsedText :=
  let lower := (Py.asciiLower text).data
  let decision :=
    if listContains lower ("take_trade".toList) ||
        listContains lower ("take trade".toList) then "TAKE_TRADE"
    else if listContains lower ("no_trade".toList) ||
        listContains lower ("no trade".toList) then "NO_TRADE"
    else "NO_TRADE"
  let confidence : ℚ :=
    match findConfidence lower with
    | some q => min q 1
    | Option.none => 1/2
  { decision := decision, confidence := confidence, reason := text.take 500 }

/-- C3: for every input text, `_parse_text_response` yields `TAKE_TRADE`
when the lower-cased text contains a take-trade phrasing, yields `NO_TRADE`
whenever no take-trade phrasing occurs (in particular when neither phrasing
occurs), extracts the confidence through the `confidence: <number>` pattern
clamped to at most 1.0 with default 0.5 when the pattern is absent, and
returns the first 500 characters of the text as the reason. -/
theorem parse_text_response_spec (text : String) :
    ((listContains ((Py.asciiLower text).data) ("take_trade".toList) ||
        listContains ((Py.asciiLower text).data) ("take trade".toList)) = true →
      (parseTextResponse text).decision = "TAKE_TRADE") ∧
    ((listContains ((Py.asciiLower text).data) ("take_trade".toList) ||
        listContains ((Py.asciiLower text).data) ("take trade".toList)) = false →
      (parseTextResponse text).decision = "NO_TRADE") ∧
    (findConfidence ((Py.asciiLower text).data) = Option.none →
      (parseTextResponse text).confidence = 1/2) ∧
    (∀ q, findConfidence ((Py.asciiLower text).data) = some q →
      (parseTextResponse text).confidence = min q 1) ∧
    (parseTextResponse text).confidence ≤ 1 ∧
    (parseTextResponse text).reason = text.take 500 := by
  refine ⟨?_, ?_, ?_, ?_, ?_, by simp [parseTextResponse]⟩
  · intro h
    simp only [Bool.or_eq_true] at h
    simp only [parseTextResponse, String.toList] at h ⊢
    rcases h with h | h <;> simp [h]
  · intro h
    simp only [parseTextResponse, h, Bool.false_eq_true, if_false]
    split <;> rfl
  · intro h
    simp [parseTextResponse, h]
  · intro q h
    simp [parseTextResponse, h]
  · rcases h : findConfidence ((Py.asciiLower text).data) with _ | q
    · simp [parseTextResponse, h]
      norm_num
    · simp [parseTextResponse, h]

/-- Witness for C3 at the concrete text
`"I would TAKE TRADE here. Confidence: 2"`: the take phrasing is found
case-insensitively and the out-of-range confidence 2 is capped at 1. -/
theorem parse_text_response_spec_witness :
    (listContains ((Py.asciiLower "I would TAKE TRADE here. Confidence: 2").data)
        ("take_trade".toList) ||
      listContains ((Py.asciiLower "I would TAKE TRADE here. Confidence: 2").data)
        ("take trade".toList)) = true ∧
    findConfidence ((Py.asciiLower "I would TAKE TRADE here. Confidence: 2").data) =
      some 2 ∧
    (parseTextResponse "I would TAKE TRADE here. Confidence: 2").decision =
      "TAKE_TRADE" ∧
    (parseTextResponse "I would TAKE TRADE here. Confidence: 2").confidence = min 2 1 := by
  have h1 : (listContains
      ((Py.asciiLower "I would TAKE TRADE here. Confidence: 2").data)
        ("take_trade".toList) ||
      listContains ((Py.asciiLower "I would TAKE TRADE here. Confidence: 2").data)
        ("take trade".toList)) = true := by decide
  have h2 : findConfidence
      ((Py.asciiLower "I would TAKE TRADE here. Confidence: 2").data) = some 2 := by
    decide
  obtain ⟨ha, -, -, hd, -, -⟩ :=
    parse_text_response_spec "I would TAKE TRADE here. Confidence: 2"
  exact ⟨h1, h2, ha h1, hd 2 h2⟩

/-! ## Memory store: `VectorStore.search_similar_trades` / `search_relevant_rules` -/

namespace Store

/-- A stored trade point as the rules of `store_trade_memory` shape it,
together with its cosine-similarity score against the current query
embedding (the score is computed inside the external Qdrant service, so it
is carried here as data). -/
structure TradePoint where
  score : ℚ
  trade_id : String
  symbol : String
  result : ℚ
  result_type : String
deriving DecidableEq

/-- A stored rule point as `store_rule_memory` shapes it, with its
similarity score against the current query embedding. -/
structure RulePoint where
  score : ℚ
  rule_text : String
  rule_type : String
  confidence : ℚ
  is_active : Bool
deriving DecidableEq

/-- Stable insertion into a descending-by-score list. -/
def insertByScoreDesc {α : Type} (score : α → ℚ) (a : α) : List α → List α
  | [] => [a]
  | b :: t => if score b ≤ score a then a :: b :: t else b :: insertByScoreDesc score a t

/-- Sort a result list by descending score. -/
def sortByScoreDesc {α : Type} (score : α → ℚ) (l : List α) : List α :=
  l.foldr (insertByScoreDesc score) []

theorem length_insertByScoreDesc {α : Type} (score : α → ℚ) (a : α) (l : List α) :
    (insertByScoreDesc score a l).length = l.length + 1 := by
  induction l with
  | nil => rfl
  | cons b t ih =>
    simp only [insertByScoreDesc]
    split <;> simp [ih]

theorem mem_insertByScoreDesc {α : Type} (score : α → ℚ) (a x : α) (l : List α) :
    x ∈ insertByScoreDesc score a l ↔ x = a ∨ x ∈ l := by
  induction l with
  | nil => simp [insertByScoreDesc]
  | cons b t ih =>
    simp only [insertByScoreDesc]
    split
    · simp
    · simp [ih]
      tauto

theorem mem_sortByScoreDesc {α : Type} (score : α → ℚ) (x : α) (l : List α) :
    x ∈ sortByScoreDesc score l ↔ x ∈ l := by
  induction l with
  | nil => simp [sortByScoreDesc]
  | cons b t ih =>
    simp only [sortByScoreDesc, List.foldr_cons] at ih ⊢
    rw [mem_insertByScoreDesc, ih]
    simp

/-- Modelled from the spec: the external Qdrant `client.search` contract
(spec section 6, Memory Store): return the points matching the exact-match
filter whose similarity score is at or above `score_threshold`, ranked by
descending score and truncated at `limit`.  Qdrant itself is an external
collaborator; only this contract is modelled. -/
def qdrantSearch {α : Type} (score : α → ℚ) (flt : α → Bool) (pts : List α)
    (limit : ℕ) (threshold : ℚ) : List α :=
  (sortByScoreDesc score
    (pts.filter (fun p => flt p && decide (threshold ≤ score p)))).take limit

theorem length_qdrantSearch_le {α : Type} (score : α → ℚ) (flt : α → Bool)
    (pts : List α) (limit : ℕ) (threshold : ℚ) :
    (qdrantSearch score flt pts limit threshold).length ≤ limit := by
  simp [qdrantSearch]

theorem mem_qdrantSearch {α : Type} {score : α → ℚ} {flt : α → Bool}
    {pts : List α} {limit : ℕ} {threshold : ℚ} {x : α}
    (hx : x ∈ qdrantSearch score flt pts limit threshold) :
    flt x = true ∧ threshold ≤ score x ∧ x ∈ pts := by
  have h1 := List.mem_of_mem_take hx
  rw [mem_sortByScoreDesc] at h1
  have h2 := List.mem_filter.mp h1
  rcases h2 with ⟨hmem, hcond⟩
  simp only [Bool.and_eq_true, decide_eq_true_eq] at hcond
  exact ⟨hcond.1, hcond.2, hmem⟩

/-- The `min_score=0.7` default in the `search_similar_trades` signature. -/
def searchSimilarTradesDefaultMinScore : ℚ := 7/10

/-- Embedding of `VectorStore.search_similar_trades` (vector_store.py):
optional exact-match symbol filter, then the Qdrant search at `limit` and
`min_score`. -/
def searchSimilarTrades (store : List TradePoint) (symbol : Option String)
    (limit : ℕ) (minScore : ℚ) : List TradePoint :=
  qdrantSearch (fun p => p.score)
    (fun p =>
      match symbol with
      | some s => p.symbol == s
      | Option.none => true)
    store limit minScore

/-- Embedding of `VectorStore.search_relevant_rules` (vector_store.py lines
185-236): filter on `is_active = true` (plus an optional rule-type
exact-match), then the Qdrant search at `limit` and `min_score`.  Note that
`min_score` is passed to Qdrant as the similarity `score_threshold`; the
rule's stored `confidence` payload field is not consulted. -/
def searchRelevantRules (store : List RulePoint) (ruleType : Option String)
    (limit : ℕ) (minScore : ℚ) : List RulePoint :=
  qdrantSearch (fun p => p.score)
    (fun p =>
      p.is_active &&
        match ruleType with
        | some t => p.rule_type == t
        | Option.none => true)
    store limit minScore

/-- `settings.MAX_SIMILAR_TRADES` (config.py). -/
def MAX_SIMILAR_TRADES : ℕ := 5

/-- `settings.MAX_RULES_CONTEXT` (config.py). -/
def MAX_RULES_CONTEXT : ℕ := 10

/-- `settings.MIN_RULE_CONFIDENCE` (config.py). -/
def MIN_RULE_CONFIDENCE : ℚ := 3/5

/-- The trade search as `DecisionPipeline.execute` issues it (decision.py
lines 69-75): symbol filter, `limit=MAX_SIMILAR_TRADES`, and the store-layer
default `min_score` left unchanged. -/
def decisionTradeSearch (store : List TradePoint) (symbol : String) : List TradePoint :=
  searchSimilarTrades store (some symbol) MAX_SIMILAR_TRADES
    searchSimilarTradesDefaultMinScore

/-- The rule search as `DecisionPipeline.execute` issues it (decision.py
lines 77-83): no rule-type filter, `limit=MAX_RULES_CONTEXT`, and
`min_score=MIN_RULE_CONFIDENCE` passed as the similarity threshold. -/
def decisionRuleSearch (store : List RulePoint) : List RulePoint :=
  searchRelevantRules store Option.none MAX_RULES_CONTEXT MIN_RULE_CONFIDENCE

end Store

/-- C4 (amended): during one decision-pipeline execution the trade search
requests at most `MAX_SIMILAR_TRADES` (5) trades filtered by the given
symbol with the store-layer similarity threshold 0.7 left unchanged, and
the rule search returns at most `MAX_RULES_CONTEXT` (10) active rules, each
with similarity score at or above `MIN_RULE_CONFIDENCE` (0.6) — the
threshold applies to the similarity score, not to the rules' stored
confidence values. -/
theorem decision_search_contract (tstore : List Store.TradePoint)
    (rstore : List Store.RulePoint) (sym : String) :
    (Store.decisionTradeSearch tstore sym).length ≤ Store.MAX_SIMILAR_TRADES ∧
    (∀ p ∈ Store.decisionTradeSearch tstore sym,
      p.symbol = sym ∧ Store.searchSimilarTradesDefaultMinScore ≤ p.score) ∧
    (Store.decisionRuleSearch rstore).length ≤ Store.MAX_RULES_CONTEXT ∧
    (∀ p ∈ Store.decisionRuleSearch rstore,
      p.is_active = true ∧ Store.MIN_RULE_CONFIDENCE ≤ p.score) := by
  refine ⟨Store.length_qdrantSearch_le _ _ _ _ _, ?_,
    Store.length_qdrantSearch_le _ _ _ _ _, ?_⟩
  · intro p hp
    obtain ⟨hf, hs, -⟩ := Store.mem_qdrantSearch hp
    refine ⟨?_, hs⟩
    simpa using hf
  · intro p hp
    obtain ⟨hf, hs, -⟩ := Store.mem_qdrantSearch hp
    refine ⟨?_, hs⟩
    simpa using hf

/-- A concrete active rule with high similarity but confidence far below
`MIN_RULE_CONFIDENCE`. -/
def lowConfRule : Store.RulePoint :=
  { score := 9/10, rule_text := "always fade the open", rule_type := "PATTERN",
    confidence := 1/10, is_active := true }

/-- C4 counterexample: the decision pipeline's rule search returns an active
rule whose stored confidence (0.1) is strictly below
`MIN_RULE_CONFIDENCE` (0.6), because the threshold is applied to the
similarity score only — refuting the claim that every returned rule has
confidence at or above `MIN_RULE_CONFIDENCE`. -/
theorem decision_rule_search_ignores_confidence :
    Store.decisionRuleSearch [lowConfRule] = [lowConfRule] ∧
    lowConfRule.confidence < Store.MIN_RULE_CONFIDENCE := by
  constructor
  · have hc : Store.MIN_RULE_CONFIDENCE ≤ lowConfRule.score := by
      norm_num [Store.MIN_RULE_CONFIDENCE, lowConfRule]
    simp [Store.decisionRuleSearch, Store.searchRelevantRules, Store.qdrantSearch,
      Store.sortByScoreDesc, Store.insertByScoreDesc, lowConfRule,
      Store.MAX_RULES_CONTEXT, Store.MIN_RULE_CONFIDENCE]
    norm_num [Store.insertByScoreDesc]
  · norm_num [Store.MIN_RULE_CONFIDENCE, lowConfRule]

/-- A concrete stored trade point for the C4 witness. -/
def esTradePoint : Store.TradePoint :=
  { score := 4/5, trade_id := "T1", symbol := "ES", result := 5, result_type := "WIN" }

/-- Witness for C4's amended theorem at a concrete one-point store. -/
theorem decision_search_contract_witness :
    (Store.decisionTradeSearch [esTradePoint] "ES").length ≤
        Store.MAX_SIMILAR_TRADES ∧
    esTradePoint ∈ Store.decisionTradeSearch [esTradePoint] "ES" ∧
    esTradePoint.symbol = "ES" ∧
    Store.searchSimilarTradesDefaultMinScore ≤ esTradePoint.score := by
  have heq : Store.decisionTradeSearch [esTradePoint] "ES" = [esTradePoint] := by
    simp [Store.decisionTradeSearch, Store.searchSimilarTrades, Store.qdrantSearch,
      Store.sortByScoreDesc, Store.insertByScoreDesc, esTradePoint,
      Store.MAX_SIMILAR_TRADES, Store.searchSimilarTradesDefaultMinScore]
    norm_num [Store.insertByScoreDesc]
  have hmem : esTradePoint ∈ Store.decisionTradeSearch [esTradePoint] "ES" := by
    rw [heq]
    exact List.mem_singleton.mpr rfl
  obtain ⟨hlen, hall, -, -⟩ := decision_search_contract [esTradePoint] [] "ES"
  obtain ⟨hsym, hsc⟩ := hall esTradePoint hmem
  exact ⟨hlen, hmem, hsym, hsc⟩

/-! ## Learning pipeline: data model

Rows model the SQLAlchemy ORM objects of models.py.  String columns hold
`String`, numeric columns hold exact rationals, nullable columns hold
`Option`.  A freshly constructed ORM object has `none` in every column that
was not passed to the constructor — the `default=0` declarations of
models.py are applied only when a row is INSERTed — while a row read back
from the database carries those defaults. -/

namespace Learn

/-- A row of the `trades` table (models.py lines 31-72), restricted to the
columns the learning pipeline reads or writes. -/
structure TradeRow where
  id : String
  trade_id : String
  symbol : String
  timeframe : String
  direction : String
  entry_price : ℚ
  exit_price : ℚ
  result : Option ℚ
  result_percent : ℚ
  market_context : Py.Val
  trade_context : Py.Val
  critique : Py.Val
  extracted_rules : List Py.Val
  learning_processed : Bool

/-- A row of the `rules` table.  The value columns hold the Python values
taken from the LLM's rule dicts. -/
structure RuleRow where
  rule_id : String
  rule_text : Py.Val
  rule_type : Py.Val
  confidence : Py.Val
  source_trade_id : String
  is_active : Bool

/-- A row of the `statistics` table, or the in-session `Statistic` ORM
object: every numeric column is `Option`-valued because a freshly
constructed object holds `None` until INSERT applies the column defaults. -/
structure StatRow where
  symbol : String
  timeframe : String
  total_trades : Option ℤ
  winning_trades : Option ℤ
  losing_trades : Option ℤ
  total_pnl : Option ℚ
  avg_win : Option ℚ
  avg_loss : Option ℚ
  max_win : Option ℚ
  max_loss : Option ℚ
  win_rate : Option ℚ
  profit_factor : Option ℚ
  expectancy : Option ℚ

/-- A row of the `learning_queue` table (after INSERT, so the `PENDING` /
`0` column defaults are present). -/
structure QueueRow where
  id : String
  trade_id : String
  status : String
  attempts : ℕ
  last_error : Option String

/-- The relational ledger state. -/
structure DB where
  trades : List TradeRow
  rules : List RuleRow
  stats : List StatRow
  queue : List QueueRow

/-- `Statistic(symbol=..., timeframe=...)` as constructed by
`_update_statistics`: every counter attribute is `None` because SQLAlchemy
column defaults are not applied at object construction. -/
def freshStatistic (sym tf : String) : StatRow :=
  { symbol := sym, timeframe := tf,
    total_trades := Option.none, winning_trades := Option.none,
    losing_trades := Option.none, total_pnl := Option.none,
    avg_win := Option.none, avg_loss := Option.none,
    max_win := Option.none, max_loss := Option.none,
    win_rate := Option.none, profit_factor := Option.none,
    expectancy := Option.none }

/-- A statistics row as it would read back from the database after an INSERT
applied the declared column defaults (`default=0` throughout). -/
def defaultStatistic (sym tf : String) : StatRow :=
  { symbol := sym, timeframe := tf,
    total_trades := some 0, winning_trades := some 0, losing_trades := some 0,
    total_pnl := some 0, avg_win := some 0, avg_loss := some 0,
    max_win := some 0, max_loss := some 0, win_rate := some 0,
    profit_factor := some 0, expectancy := some 0 }

/-- Python `attr += v` on an Integer column attribute: `None + 1` raises. -/
def pyAddOptZ (a : Option ℤ) (b : ℤ) : Except String ℤ :=
  match a with
  | some x => .ok (x + b)
  | Option.none => .error "TypeError: unsupported operand types NoneType and int"

/-- Python `attr += v` on a Numeric column attribute. -/
def pyAddOptQ (a : Option ℚ) (b : ℚ) : Except String ℚ :=
  match a with
  | some x => .ok (x + b)
  | Option.none => .error "TypeError: unsupported operand types NoneType and float"

/-- Python `a < attr` against a possibly-`None` column attribute. -/
def pyLtOpt (a : ℚ) (b : Option ℚ) : Except String Bool :=
  match b with
  | some y => .ok (decide (a < y))
  | Option.none => .error "TypeError: comparison of float and NoneType"

/-- Python `attr < a` against a possibly-`None` column attribute. -/
def pyGtOpt (a : ℚ) (b : Option ℚ) : Except String Bool :=
  match b with
  | some y => .ok (decide (y < a))
  | Option.none => .error "TypeError: comparison of float and NoneType"

/-- Use of a possibly-`None` Numeric attribute in arithmetic or comparison. -/
def obtQ (o : Option ℚ) : Except String ℚ :=
  match o with
  | some v => .ok v
  | Option.none => .error "TypeError: NoneType in numeric operation"

/-- Use of a possibly-`None` Integer attribute in arithmetic or comparison. -/
def obtZ (o : Option ℤ) : Except String ℤ :=
  match o with
  | some v => .ok v
  | Option.none => .error "TypeError: NoneType in numeric operation"

/-- Python truthiness of a possibly-`None` numeric attribute. -/
def truthyQ : Option ℚ → Bool
  | some q => q != 0
  | Option.none => false

/-- Python `trade.result and trade.result > 0` (the WIN test used
throughout learning.py): `None` and `0` are falsy. -/
def pyResultIsWin : Option ℚ → Bool
  | some v => v != 0 && decide (0 < v)
  | Option.none => false

/-- The session query `select(Trade).where(Trade.symbol == sym,
Trade.result > 0)` — all strictly-winning trades of the symbol, across
timeframes (SQL `NULL > 0` is not true). -/
def winsFor (dbTrades : List TradeRow) (sym : String) : List TradeRow :=
  dbTrades.filter (fun u =>
    u.symbol == sym &&
      match u.result with
      | some r => decide (0 < r)
      | Option.none => false)

/-- The session query `select(Trade).where(Trade.symbol == sym,
Trade.result < 0)` — all strictly-losing trades of the symbol, across
timeframes. -/
def lossesFor (dbTrades : List TradeRow) (sym : String) : List TradeRow :=
  dbTrades.filter (fun u =>
    u.symbol == sym &&
      match u.result with
      | some r => decide (r < 0)
      | Option.none => false)

/-- Mean of the `result` values of a non-empty trade list
(`sum(float(w.result) for w in ws) / len(ws)`). -/
def meanResult (ws : List TradeRow) : ℚ :=
  (ws.map (fun u => u.result.getD 0)).sum / (ws.length : ℚ)

/-! ### `_update_statistics` (learning.py lines 305-378), stage by stage -/

/-- Count/pnl/extremes block: `stat.total_trades += 1` then the win/loss
branch on `trade.result and trade.result > 0` (a loss is any non-positive
result; P/L and max-loss are touched only when the result is truthy). -/
def statOutcome (stat : StatRow) (t : TradeRow) : Except String StatRow := do
  let tt ← pyAddOptZ stat.total_trades 1
  if pyResultIsWin t.result then do
    let r := t.result.getD 0
    let wt ← pyAddOptZ stat.winning_trades 1
    let pnl ← pyAddOptQ stat.total_pnl r
    let gt ← pyGtOpt r stat.max_win
    pure { stat with
           total_trades := some tt
           winning_trades := some wt
           total_pnl := some pnl
           max_win := if gt then some r else stat.max_win }
  else do
    let lt ← pyAddOptZ stat.losing_trades 1
    match t.result with
    | some r =>
      if r != 0 then do
        let pnl ← pyAddOptQ stat.total_pnl r
        let lb ← pyLtOpt r stat.max_loss
        pure { stat with
               total_trades := some tt
               losing_trades := some lt
               total_pnl := some pnl
               max_loss := if lb then some r else stat.max_loss }
      else
        pure { stat with total_trades := some tt, losing_trades := some lt }
    | Option.none =>
      pure { stat with total_trades := some tt, losing_trades := some lt }

/-- Ratio block: `if stat.total_trades > 0: stat.win_rate =
stat.winning_trades / stat.total_trades` (true division). -/
def statWinRate (st : StatRow) : Except String StatRow := do
  let tt ← obtZ st.total_trades
  if 0 < tt then do
    let wt ← obtZ st.winning_trades
    pure { st with win_rate := some ((wt : ℚ) / (tt : ℚ)) }
  else pure st

/-- Average-win block: when `stat.winning_trades > 0`, re-query all winning
trades of the symbol and average their results (skip when the query is
empty). -/
def statAvgWin (dbTrades : List TradeRow) (st : StatRow) (t : TradeRow) :
    Except String StatRow := do
  let wt ← obtZ st.winning_trades
  if 0 < wt then
    let wins := winsFor dbTrades t.symbol
    if !wins.isEmpty then
      pure { st with avg_win := some (meanResult wins) }
    else pure st
  else pure st

/-- Average-loss block: when `stat.losing_trades > 0`, re-query all
strictly-losing trades of the symbol and average their results. -/
def statAvgLoss (dbTrades : List TradeRow) (st : StatRow) (t : TradeRow) :
    Except String StatRow := do
  let lt ← obtZ st.losing_trades
  if 0 < lt then
    let losses := lossesFor dbTrades t.symbol
    if !losses.isEmpty then
      pure { st with avg_loss := some (meanResult losses) }
    else pure st
  else pure st

/-- Profit-factor block: guarded by `stat.avg_loss and stat.avg_loss < 0`,
computes `(avg_win * winning) / abs(avg_loss * losing)` when the
denominator is positive. -/
def statProfitFactor (st : StatRow) : Except String StatRow := do
  if truthyQ st.avg_loss then do
    let al ← obtQ st.avg_loss
    if al < 0 then do
      let aw ← obtQ st.avg_win
      let wt ← obtZ st.winning_trades
      let lt ← obtZ st.losing_trades
      let grossWins := aw * (wt : ℚ)
      let grossLosses := |al * (lt : ℚ)|
      if 0 < grossLosses then
        pure { st with profit_factor := some (grossWins / grossLosses) }
      else pure st
    else pure st
  else pure st

/-- Expectancy block: guarded by the truthiness of `stat.win_rate`,
computes `win_rate*avg_win + (1-win_rate)*avg_loss`. -/
def statExpectancy (st : StatRow) : Except String StatRow := do
  if truthyQ st.win_rate then do
    let wr ← obtQ st.win_rate
    let aw ← obtQ st.avg_win
    let al ← obtQ st.avg_loss
    pure { st with expectancy := some (wr * aw + (1 - wr) * al) }
  else pure st

/-- Embedding of `LearningPipeline._update_statistics` (learning.py lines
305-378) after the get-or-create of the statistics row: the five update
blocks in source order.  `dbTrades` is the trades table seen by the
re-query of averages. -/
def updateStatistics (dbTrades : List TradeRow) (stat : StatRow) (t : TradeRow) :
    Except String StatRow := do
  let s1 ← statOutcome stat t
  let s2 ← statWinRate s1
  let s3 ← statAvgWin dbTrades s2 t
  let s4 ← statAvgLoss dbTrades s3 t
  let s5 ← statProfitFactor s4
  statExpectancy s5

/-- Record a trade into the ledger then run `_update_statistics` for it,
iterated over a trade sequence: the per-trade learning flow restricted to
its statistics effect (each trade is inserted by `record_trade` before its
learning run queries the table). -/
def updateFold (dbTrades : List TradeRow) (stat : StatRow) :
    List TradeRow → Except String (List TradeRow × StatRow)
  | [] => .ok (dbTrades, stat)
  | t :: rest => do
    let db' := dbTrades ++ [t]
    let st' ← updateStatistics db' stat t
    updateFold db' st' rest

end Learn

/-- All numeric columns of a statistics row are populated (the state of any
row read back from the database, where INSERT applied the column defaults). -/
def populatedStat (s : Learn.StatRow) : Prop :=
  s.total_trades.isSome = true ∧ s.winning_trades.isSome = true ∧
  s.losing_trades.isSome = true ∧ s.total_pnl.isSome = true ∧
  s.avg_win.isSome = true ∧ s.avg_loss.isSome = true ∧
  s.max_win.isSome = true ∧ s.max_loss.isSome = true ∧
  s.win_rate.isSome = true ∧ s.profit_factor.isSome = true ∧
  s.expectancy.isSome = true

theorem statOutcome_populated (s : Learn.StatRow) (t : Learn.TradeRow)
    (h : populatedStat s) :
    ∃ s', Learn.statOutcome s t = .ok s' ∧ populatedStat s' ∧
      s'.symbol = s.symbol ∧ s'.timeframe = s.timeframe ∧
      s'.avg_win = s.avg_win ∧ s'.avg_loss = s.avg_loss ∧
      s'.win_rate = s.win_rate ∧
      (∀ a, s.total_trades = some a → s'.total_trades = some (a + 1)) ∧
      (∀ w l, s.winning_trades = some w → s.losing_trades = some l →
        ∃ w' l', s'.winning_trades = some w' ∧ s'.losing_trades = some l' ∧
          w' + l' = w + l + 1) := by
  obtain ⟨sy, tf, tt0, wt0, lt0, pnl0, aw0, al0, mw0, ml0, wr0, pf0, ex0⟩ := s
  obtain ⟨h1, h2, h3, h4, h5, h6, h7, h8, h9, h10, h11⟩ := h
  rcases tt0 with _ | a <;> simp_all
  rcases wt0 with _ | w <;> simp_all
  rcases lt0 with _ | l <;> simp_all
  rcases pnl0 with _ | p <;> simp_all
  rcases aw0 with _ | aw <;> simp_all
  rcases al0 with _ | al <;> simp_all
  rcases mw0 with _ | mw <;> simp_all
  rcases ml0 with _ | ml <;> simp_all
  rcases wr0 with _ | wr <;> simp_all
  rcases pf0 with _ | pf <;> simp_all
  rcases ex0 with _ | ex <;> simp_all
  rcases ht : t.result with _ | r
  · refine ⟨{ symbol := sy, timeframe := tf, total_trades := some (a + 1),
                    winning_trades := some w, losing_trades := some (l + 1),
                    total_pnl := some p, avg_win := some aw, avg_loss := some al,
                    max_win := some mw, max_loss := some ml, win_rate := some wr,
                    profit_factor := some pf, expectancy := some ex }, ?_, ?_⟩
    · simp [Learn.statOutcome, ht, Learn.pyResultIsWin, Learn.pyAddOptZ,
        exc_bind_ok, exc_pure]
    · refine ⟨by simp [populatedStat], rfl, rfl, rfl, rfl, rfl, ?_, ?_⟩
      · rfl
      · exact ⟨w, rfl, l + 1, rfl, by ring⟩
  · by_cases hw : Learn.pyResultIsWin (some r) = true
    · refine ⟨{ symbol := sy, timeframe := tf, total_trades := some (a + 1),
                      winning_trades := some (w + 1), losing_trades := some l,
                      total_pnl := some (p + r), avg_win := some aw, avg_loss := some al,
                      max_win := if mw < r then some r else some mw, max_loss := some ml,
                      win_rate := some wr, profit_factor := some pf,
                      expectancy := some ex }, ?_, ?_⟩
      · simp only [Learn.statOutcome, ht, hw, Learn.pyAddOptZ, Learn.pyAddOptQ,
          Learn.pyGtOpt, exc_bind_ok, exc_pure, if_true, Option.getD_some]
        split <;> rename_i hc <;> simp at hc <;>
          first
          | rw [if_pos hc]
          | rw [if_neg (not_lt.mpr hc)]
      · refine ⟨?_, rfl, rfl, rfl, rfl, rfl, ?_, ?_⟩
        · refine ⟨rfl, rfl, rfl, rfl, rfl, rfl, ?_, rfl, rfl, rfl, rfl⟩
          split <;> rfl
        · rfl
        · exact ⟨w + 1, rfl, l, rfl, by ring⟩
    · by_cases hz : r = 0
      · subst hz
        refine ⟨{ symbol := sy, timeframe := tf, total_trades := some (a + 1),
                        winning_trades := some w, losing_trades := some (l + 1),
                        total_pnl := some p, avg_win := some aw, avg_loss := some al,
                        max_win := some mw, max_loss := some ml, win_rate := some wr,
                        profit_factor := some pf, expectancy := some ex }, ?_, ?_⟩
        · simp [Learn.statOutcome, ht, hw, Learn.pyAddOptZ, exc_bind_ok, exc_pure]
        · refine ⟨by simp [populatedStat], rfl, rfl, rfl, rfl, rfl, ?_, ?_⟩
          · rfl
          · exact ⟨w, rfl, l + 1, rfl, by ring⟩
      · refine ⟨{ symbol := sy, timeframe := tf, total_trades := some (a + 1),
                        winning_trades := some w, losing_trades := some (l + 1),
                        total_pnl := some (p + r), avg_win := some aw, avg_loss := some al,
                        max_win := some mw, max_loss := if r < ml then some r else some ml,
                        win_rate := some wr, profit_factor := some pf,
                        expectancy := some ex }, ?_, ?_⟩
        · simp only [Learn.statOutcome, ht, hw, Learn.pyAddOptZ, Learn.pyAddOptQ,
            Learn.pyLtOpt, exc_bind_ok, exc_pure, Bool.false_eq_true, if_false]
          simp only [bne_iff_ne, ne_eq, hz, not_false_eq_true, if_true,
            exc_bind_ok, exc_pure]
          split <;> rename_i hc <;> simp at hc <;>
          first
          | rw [if_pos hc]
          | rw [if_neg (not_lt.mpr hc)]
        · refine ⟨?_, rfl, rfl, rfl, rfl, rfl, ?_, ?_⟩
          · refine ⟨rfl, rfl, rfl, rfl, rfl, rfl, rfl, ?_, rfl, rfl, rfl⟩
            split <;> rfl
          · rfl
          · exact ⟨w, rfl, l + 1, rfl, by ring⟩

theorem statWinRate_populated (s : Learn.StatRow) (h : populatedStat s) :
    ∃ s', Learn.statWinRate s = .ok s' ∧ populatedStat s' ∧
      s'.symbol = s.symbol ∧ s'.timeframe = s.timeframe ∧
      s'.total_trades = s.total_trades ∧ s'.winning_trades = s.winning_trades ∧
      s'.losing_trades = s.losing_trades ∧ s'.total_pnl = s.total_pnl ∧
      s'.avg_win = s.avg_win ∧ s'.avg_loss = s.avg_loss ∧
      s'.max_win = s.max_win ∧ s'.max_loss = s.max_loss := by
  obtain ⟨sy, tf, tt0, wt0, lt0, pnl0, aw0, al0, mw0, ml0, wr0, pf0, ex0⟩ := s
  obtain ⟨h1, h2, h3, h4, h5, h6, h7, h8, h9, h10, h11⟩ := h
  rcases tt0 with _ | a <;> simp_all
  rcases wt0 with _ | w <;> simp_all
  rcases lt0 with _ | l <;> simp_all
  rcases pnl0 with _ | p <;> simp_all
  rcases aw0 with _ | aw <;> simp_all
  rcases al0 with _ | al <;> simp_all
  rcases mw0 with _ | mw <;> simp_all
  rcases ml0 with _ | ml <;> simp_all
  rcases wr0 with _ | wr <;> simp_all
  rcases pf0 with _ | pf <;> simp_all
  rcases ex0 with _ | ex <;> simp_all
  simp only [Learn.statWinRate, Learn.obtZ, exc_bind_ok, exc_pure]
  split
  · exact ⟨_, rfl, by simp [populatedStat], rfl, rfl, rfl, rfl, rfl, rfl,
      rfl, rfl, rfl, rfl⟩
  · exact ⟨_, rfl, by simp [populatedStat], rfl, rfl, rfl, rfl, rfl, rfl,
      rfl, rfl, rfl, rfl⟩

theorem statAvgWin_populated (db : List Learn.TradeRow) (s : Learn.StatRow)
    (t : Learn.TradeRow) (h : populatedStat s) :
    ∃ s', Learn.statAvgWin db s t = .ok s' ∧ populatedStat s' ∧
      s'.symbol = s.symbol ∧ s'.timeframe = s.timeframe ∧
      s'.total_trades = s.total_trades ∧ s'.winning_trades = s.winning_trades ∧
      s'.losing_trades = s.losing_trades ∧ s'.total_pnl = s.total_pnl ∧
      s'.avg_loss = s.avg_loss ∧ s'.win_rate = s.win_rate ∧
      s'.max_win = s.max_win ∧ s'.max_loss = s.max_loss := by
  obtain ⟨sy, tf, tt0, wt0, lt0, pnl0, aw0, al0, mw0, ml0, wr0, pf0, ex0⟩ := s
  obtain ⟨h1, h2, h3, h4, h5, h6, h7, h8, h9, h10, h11⟩ := h
  rcases tt0 with _ | a <;> simp_all
  rcases wt0 with _ | w <;> simp_all
  rcases lt0 with _ | l <;> simp_all
  rcases pnl0 with _ | p <;> simp_all
  rcases aw0 with _ | aw <;> simp_all
  rcases al0 with _ | al <;> simp_all
  rcases mw0 with _ | mw <;> simp_all
  rcases ml0 with _ | ml <;> simp_all
  rcases wr0 with _ | wr <;> simp_all
  rcases pf0 with _ | pf <;> simp_all
  rcases ex0 with _ | ex <;> simp_all
  simp only [Learn.statAvgWin, Learn.obtZ, exc_bind_ok, exc_pure]
  split
  · split
    · exact ⟨_, rfl, by simp [populatedStat], rfl, rfl, rfl, rfl, rfl, rfl,
        rfl, rfl, rfl, rfl⟩
    · exact ⟨_, rfl, by simp [populatedStat], rfl, rfl, rfl, rfl, rfl, rfl,
        rfl, rfl, rfl, rfl⟩
  · exact ⟨_, rfl, by simp [populatedStat], rfl, rfl, rfl, rfl, rfl, rfl,
      rfl, rfl, rfl, rfl⟩

theorem statAvgLoss_populated (db : List Learn.TradeRow) (s : Learn.StatRow)
    (t : Learn.TradeRow) (h : populatedStat s) :
    ∃ s', Learn.statAvgLoss db s t = .ok s' ∧ populatedStat s' ∧
      s'.symbol = s.symbol ∧ s'.timeframe = s.timeframe ∧
      s'.total_trades = s.total_trades ∧ s'.winning_trades = s.winning_trades ∧
      s'.losing_trades = s.losing_trades ∧ s'.total_pnl = s.total_pnl ∧
      s'.avg_win = s.avg_win ∧ s'.win_rate = s.win_rate ∧
      s'.max_win = s.max_win ∧ s'.max_loss = s.max_loss ∧
      (∀ l, s.losing_trades = some l →
        s'.avg_loss =
          if 0 < l then
            (if (Learn.lossesFor db t.symbol).isEmpty then s.avg_loss
             else some (Learn.meanResult (Learn.lossesFor db t.symbol)))
          else s.avg_loss) := by
  obtain ⟨sy, tf, tt0, wt0, lt0, pnl0, aw0, al0, mw0, ml0, wr0, pf0, ex0⟩ := s
  obtain ⟨h1, h2, h3, h4, h5, h6, h7, h8, h9, h10, h11⟩ := h
  rcases tt0 with _ | a <;> simp_all
  rcases wt0 with _ | w <;> simp_all
  rcases lt0 with _ | ll <;> simp_all
  rcases pnl0 with _ | p <;> simp_all
  rcases aw0 with _ | aw <;> simp_all
  rcases al0 with _ | al <;> simp_all
  rcases mw0 with _ | mw <;> simp_all
  rcases ml0 with _ | ml <;> simp_all
  rcases wr0 with _ | wr <;> simp_all
  rcases pf0 with _ | pf <;> simp_all
  rcases ex0 with _ | ex <;> simp_all
  simp only [Learn.statAvgLoss, Learn.obtZ, exc_bind_ok, exc_pure]
  split
  · rename_i hpos
    split
    · rename_i hne
      refine ⟨_, rfl, by simp [populatedStat], rfl, rfl, rfl, rfl, rfl, rfl,
        rfl, rfl, rfl, rfl, ?_⟩
      simp only [Bool.not_eq_true'] at hne
      simp [hpos, hne]
    · rename_i hne
      refine ⟨_, rfl, by simp [populatedStat], rfl, rfl, rfl, rfl, rfl, rfl,
        rfl, rfl, rfl, rfl, ?_⟩
      have hE : (Learn.lossesFor db t.symbol).isEmpty = true := by
        revert hne
        cases (Learn.lossesFor db t.symbol).isEmpty <;> simp
      simp [hpos, hE]
  · rename_i hpos
    refine ⟨_, rfl, by simp [populatedStat], rfl, rfl, rfl, rfl, rfl, rfl,
      rfl, rfl, rfl, rfl, ?_⟩
    simp [hpos]

theorem statProfitFactor_populated (s : Learn.StatRow) (h : populatedStat s) :
    ∃ s', Learn.statProfitFactor s = .ok s' ∧ populatedStat s' ∧
      s'.symbol = s.symbol ∧ s'.timeframe = s.timeframe ∧
      s'.total_trades = s.total_trades ∧ s'.winning_trades = s.winning_trades ∧
      s'.losing_trades = s.losing_trades ∧ s'.total_pnl = s.total_pnl ∧
      s'.avg_win = s.avg_win ∧ s'.avg_loss = s.avg_loss ∧
      s'.win_rate = s.win_rate ∧ s'.max_win = s.max_win ∧
      s'.max_loss = s.max_loss := by
  obtain ⟨sy, tf, tt0, wt0, lt0, pnl0, aw0, al0, mw0, ml0, wr0, pf0, ex0⟩ := s
  obtain ⟨h1, h2, h3, h4, h5, h6, h7, h8, h9, h10, h11⟩ := h
  rcases tt0 with _ | a <;> simp_all
  rcases wt0 with _ | w <;> simp_all
  rcases lt0 with _ | l <;> simp_all
  rcases pnl0 with _ | p <;> simp_all
  rcases aw0 with _ | aw <;> simp_all
  rcases al0 with _ | al <;> simp_all
  rcases mw0 with _ | mw <;> simp_all
  rcases ml0 with _ | ml <;> simp_all
  rcases wr0 with _ | wr <;> simp_all
  rcases pf0 with _ | pf <;> simp_all
  rcases ex0 with _ | ex <;> simp_all
  simp only [Learn.statProfitFactor, Learn.obtQ, Learn.obtZ, Learn.truthyQ,
    exc_bind_ok, exc_pure]
  split
  · split
    · split
      · exact ⟨_, rfl, by simp [populatedStat], rfl, rfl, rfl, rfl, rfl, rfl,
          rfl, rfl, rfl, rfl, rfl⟩
      · exact ⟨_, rfl, by simp [populatedStat], rfl, rfl, rfl, rfl, rfl, rfl,
          rfl, rfl, rfl, rfl, rfl⟩
    · exact ⟨_, rfl, by simp [populatedStat], rfl, rfl, rfl, rfl, rfl, rfl,
        rfl, rfl, rfl, rfl, rfl⟩
  · exact ⟨_, rfl, by simp [populatedStat], rfl, rfl, rfl, rfl, rfl, rfl,
      rfl, rfl, rfl, rfl, rfl⟩

theorem statExpectancy_populated (s : Learn.StatRow) (h : populatedStat s) :
    ∃ s', Learn.statExpectancy s = .ok s' ∧ populatedStat s' ∧
      s'.symbol = s.symbol ∧ s'.timeframe = s.timeframe ∧
      s'.total_trades = s.total_trades ∧ s'.winning_trades = s.winning_trades ∧
      s'.losing_trades = s.losing_trades ∧ s'.total_pnl = s.total_pnl ∧
      s'.avg_win = s.avg_win ∧ s'.avg_loss = s.avg_loss ∧
      s'.win_rate = s.win_rate ∧ s'.max_win = s.max_win ∧
      s'.max_loss = s.max_loss := by
  obtain ⟨sy, tf, tt0, wt0, lt0, pnl0, aw0, al0, mw0, ml0, wr0, pf0, ex0⟩ := s
  obtain ⟨h1, h2, h3, h4, h5, h6, h7, h8, h9, h10, h11⟩ := h
  rcases tt0 with _ | a <;> simp_all
  rcases wt0 with _ | w <;> simp_all
  rcases lt0 with _ | l <;> simp_all
  rcases pnl0 with _ | p <;> simp_all
  rcases aw0 with _ | aw <;> simp_all
  rcases al0 with _ | al <;> simp_all
  rcases mw0 with _ | mw <;> simp_all
  rcases ml0 with _ | ml <;> simp_all
  rcases wr0 with _ | wr <;> simp_all
  rcases pf0 with _ | pf <;> simp_all
  rcases ex0 with _ | ex <;> simp_all
  simp only [Learn.statExpectancy, Learn.obtQ, Learn.truthyQ, exc_bind_ok, exc_pure]
  split
  · exact ⟨_, rfl, by simp [populatedStat], rfl, rfl, rfl, rfl, rfl, rfl,
      rfl, rfl, rfl, rfl, rfl⟩
  · exact ⟨_, rfl, by simp [populatedStat], rfl, rfl, rfl, rfl, rfl, rfl,
      rfl, rfl, rfl, rfl, rfl⟩

theorem updateStatistics_populated (db : List Learn.TradeRow) (s : Learn.StatRow)
    (t : Learn.TradeRow) (h : populatedStat s) :
    ∃ s', Learn.updateStatistics db s t = .ok s' ∧ populatedStat s' ∧
      (∀ a, s.total_trades = some a → s'.total_trades = some (a + 1)) ∧
      (∀ w l, s.winning_trades = some w → s.losing_trades = some l →
        ∃ w' l', s'.winning_trades = some w' ∧ s'.losing_trades = some l' ∧
          w' + l' = w + l + 1) := by
  obtain ⟨s1, e1, p1, -, -, -, -, -, htot1, hcnt1⟩ := statOutcome_populated s t h
  obtain ⟨s2, e2, p2, -, -, tt2, wt2, lt2, -, -, -, -, -⟩ := statWinRate_populated s1 p1
  obtain ⟨s3, e3, p3, -, -, tt3, wt3, lt3, -, -, -, -, -⟩ :=
    statAvgWin_populated db s2 t p2
  obtain ⟨s4, e4, p4, -, -, tt4, wt4, lt4, -, -, -, -, -, -⟩ :=
    statAvgLoss_populated db s3 t p3
  obtain ⟨s5, e5, p5, -, -, tt5, wt5, lt5, -, -, -, -, -, -⟩ :=
    statProfitFactor_populated s4 p4
  obtain ⟨s6, e6, p6, -, -, tt6, wt6, lt6, -, -, -, -, -, -⟩ :=
    statExpectancy_populated s5 p5
  refine ⟨s6, ?_, p6, ?_, ?_⟩
  · simp only [Learn.updateStatistics]
    rw [e1, exc_bind_ok, e2, exc_bind_ok, e3, exc_bind_ok, e4, exc_bind_ok,
      e5, exc_bind_ok, e6]
  · intro a ha
    rw [tt6, tt5, tt4, tt3, tt2]
    exact htot1 a ha
  · intro w l hw hl
    obtain ⟨w', l', hw1, hl1, hsum⟩ := hcnt1 w l hw hl
    refine ⟨w', l', ?_, ?_, hsum⟩
    · rw [wt6, wt5, wt4, wt3, wt2]
      exact hw1
    · rw [lt6, lt5, lt4, lt3, lt2]
      exact hl1

theorem updateFold_populated (ts : List Learn.TradeRow) :
    ∀ (db0 : List Learn.TradeRow) (s : Learn.StatRow), populatedStat s →
    ∀ w l : ℤ, s.winning_trades = some w → s.losing_trades = some l →
      s.total_trades = some (w + l) →
    ∃ st w' l', Learn.updateFold db0 s ts = .ok (db0 ++ ts, st) ∧
      st.winning_trades = some w' ∧ st.losing_trades = some l' ∧
      st.total_trades = some (w' + l') ∧ w' + l' = w + l + ts.length := by
  induction ts with
  | nil =>
    intro db0 s hp w l hw hl ht
    exact ⟨s, w, l, by simp [Learn.updateFold], hw, hl, ht, by simp⟩
  | cons t rest ih =>
    intro db0 s hp w l hw hl ht
    obtain ⟨s', e', p', htot, hcnt⟩ := updateStatistics_populated (db0 ++ [t]) s t hp
    obtain ⟨w', l', hw', hl', hsum⟩ := hcnt w l hw hl
    have htot' : s'.total_trades = some (w' + l') := by
      rw [htot (w + l) ht]
      congr 1
      omega
    obtain ⟨st, w'', l'', hfold, hw'', hl'', ht'', hsum''⟩ :=
      ih (db0 ++ [t]) s' p' w' l' hw' hl' htot'
    refine ⟨st, w'', l'', ?_, hw'', hl'', ht'', ?_⟩
    · simp only [Learn.updateFold]
      rw [e', exc_bind_ok, hfold]
      simp
    · rw [hsum'']
      simp only [List.length_cons]
      push_cast
      omega

/-- C7: the claim's per-(symbol, timeframe) invariant
`winning_trades + losing_trades == total_trades == N` cannot be produced by
the code starting from a fresh `Statistic()` row: SQLAlchemy column
defaults are not applied at object construction, so for every non-empty
trade sequence the very first `stat.total_trades += 1` is `None + 1` and
raises TypeError (first conjunct).  The invariant does hold for the
arithmetic the code was written to perform, i.e. for runs starting from a
row carrying the declared `default=0` column values (second conjunct). -/
theorem statistics_counts_code_bug :
    (∀ (sym tf : String) (db0 : List Learn.TradeRow) (t : Learn.TradeRow)
        (rest : List Learn.TradeRow),
      Learn.updateFold db0 (Learn.freshStatistic sym tf) (t :: rest) =
        .error "TypeError: unsupported operand types NoneType and int") ∧
    (∀ (sym tf : String) (db0 ts : List Learn.TradeRow),
      ∃ st w l, Learn.updateFold db0 (Learn.defaultStatistic sym tf) ts =
          .ok (db0 ++ ts, st) ∧
        st.winning_trades = some w ∧ st.losing_trades = some l ∧
        st.total_trades = some (w + l) ∧ w + l = (ts.length : ℤ)) := by
  constructor
  · intro sym tf db0 t rest
    rfl
  · intro sym tf db0 ts
    have hp : populatedStat (Learn.defaultStatistic sym tf) := by
      simp [populatedStat, Learn.defaultStatistic]
    obtain ⟨st, w, l, hfold, hw, hl, ht, hsum⟩ :=
      updateFold_populated ts db0 _ hp 0 0 rfl rfl
        (by simp [Learn.defaultStatistic])
    exact ⟨st, w, l, hfold, hw, hl, ht, by omega⟩

/-- The i-th trade of the spec's statistics example: symbol ES, timeframe
1m, result `r`. -/
def esTrade (i : ℕ) (r : ℚ) : Learn.TradeRow :=
  { id := "t" ++ toString i, trade_id := "T" ++ toString i, symbol := "ES",
    timeframe := "1m", direction := "LONG", entry_price := 100,
    exit_price := 100 + r, result := some r, result_percent := r,
    market_context := .dict [], trade_context := .dict [], critique := .none,
    extracted_rules := [], learning_processed := false }

/-- C6: the spec's numeric example.  First conjunct: on the code as it
stands, the first `_update_statistics` call for a fresh (ES, 1m) statistics
row raises TypeError (`None + 1`: column defaults are not applied at
`Statistic()` construction), so the scenario's numbers are never produced.
Second conjunct: the arithmetic the code was written to perform — the same
update blocks run from a row carrying the declared `default=0` values —
yields exactly the claimed numbers: total 4, 2 wins, 2 losses, win rate
0.5, total P/L 10, avg win 8, avg loss -3, expectancy 2.5. -/
theorem statistics_example_code_bug :
    Learn.updateStatistics [esTrade 1 10] (Learn.freshStatistic "ES" "1m")
        (esTrade 1 10) =
      .error "TypeError: unsupported operand types NoneType and int" ∧
    Learn.updateFold [] (Learn.defaultStatistic "ES" "1m")
        [esTrade 1 10, esTrade 2 (-4), esTrade 3 6, esTrade 4 (-2)] =
      .ok ([esTrade 1 10, esTrade 2 (-4), esTrade 3 6, esTrade 4 (-2)],
        { symbol := "ES", timeframe := "1m",
          total_trades := some 4, winning_trades := some 2,
          losing_trades := some 2, total_pnl := some 10, avg_win := some 8,
          avg_loss := some (-3), max_win := some 10, max_loss := some (-4),
          win_rate := some (1/2), profit_factor := some (8/3),
          expectancy := some (5/2) }) := by
  constructor
  · rfl
  · norm_num [Learn.updateFold, Learn.updateStatistics, Learn.statOutcome,
      Learn.statWinRate, Learn.statAvgWin, Learn.statAvgLoss,
      Learn.statProfitFactor, Learn.statExpectancy, Learn.pyAddOptZ,
      Learn.pyAddOptQ, Learn.pyLtOpt, Learn.pyGtOpt, Learn.obtZ, Learn.obtQ,
      Learn.truthyQ, Learn.pyResultIsWin, Learn.winsFor, Learn.lossesFor,
      Learn.meanResult, Learn.defaultStatistic, esTrade, exc_bind_ok,
      exc_bind_err, exc_pure]

theorem statOutcome_zero (s : Learn.StatRow) (t : Learn.TradeRow) (a l : ℤ)
    (ht : t.result = Option.none ∨ t.result = some 0)
    (ha : s.total_trades = some a) (hl : s.losing_trades = some l) :
    Learn.statOutcome s t =
      .ok { s with total_trades := some (a + 1), losing_trades := some (l + 1) } := by
  rcases ht with ht | ht <;>
    simp [Learn.statOutcome, ht, Learn.pyResultIsWin, Learn.pyAddOptZ, ha, hl,
      exc_bind_ok, exc_pure]

/-- C10: for a trade whose result is exactly zero or absent,
`_update_statistics` (run on a populated statistics row) increments
`total_trades` and `losing_trades` but leaves `winning_trades`, `total_pnl`
and `max_loss` unchanged; the trade is excluded from the `avg_loss`
recomputation, which averages exactly the strictly-negative-result trades
of the symbol — so `avg_loss` stays at its previous value (possibly 0)
whenever no strictly negative trade exists, even though `losing_trades` is
positive. -/
theorem zero_result_statistics (db : List Learn.TradeRow) (s : Learn.StatRow)
    (t : Learn.TradeRow) (hpop : populatedStat s)
    (ht : t.result = Option.none ∨ t.result = some 0)
    (a l : ℤ) (ha : s.total_trades = some a) (hl : s.losing_trades = some l)
    (hl0 : 0 ≤ l) :
    ∃ s', Learn.updateStatistics db s t = .ok s' ∧
      s'.total_trades = some (a + 1) ∧
      s'.losing_trades = some (l + 1) ∧
      s'.winning_trades = s.winning_trades ∧
      s'.total_pnl = s.total_pnl ∧
      s'.max_loss = s.max_loss ∧
      (∀ u ∈ Learn.lossesFor db t.symbol, ∃ r, u.result = some r ∧ r < 0) ∧
      s'.avg_loss =
        (if (Learn.lossesFor db t.symbol).isEmpty then s.avg_loss
         else some (Learn.meanResult (Learn.lossesFor db t.symbol))) := by
  have e1 := statOutcome_zero s t a l ht ha hl
  obtain ⟨q1, q2, q3, q4, q5, q6, q7, q8, q9, q10, q11⟩ := hpop
  have p1 : populatedStat
      { s with total_trades := some (a + 1), losing_trades := some (l + 1) } :=
    ⟨by simp, q2, by simp, q4, q5, q6, q7, q8, q9, q10, q11⟩
  obtain ⟨s2, e2, p2, -, -, tt2, wt2, lt2, pnl2, aw2, al2, mw2, ml2⟩ :=
    statWinRate_populated _ p1
  obtain ⟨s3, e3, p3, -, -, tt3, wt3, lt3, pnl3, al3, wr3, mw3, ml3⟩ :=
    statAvgWin_populated db s2 t p2
  obtain ⟨s4, e4, p4, -, -, tt4, wt4, lt4, pnl4, aw4, wr4, mw4, ml4, hal4⟩ :=
    statAvgLoss_populated db s3 t p3
  obtain ⟨s5, e5, p5, -, -, tt5, wt5, lt5, pnl5, aw5, al5, wr5, mw5, ml5⟩ :=
    statProfitFactor_populated s4 p4
  obtain ⟨s6, e6, p6, -, -, tt6, wt6, lt6, pnl6, aw6, al6, wr6, mw6, ml6⟩ :=
    statExpectancy_populated s5 p5
  refine ⟨s6, ?_, ?_, ?_, ?_, ?_, ?_, ?_, ?_⟩
  · simp only [Learn.updateStatistics]
    rw [e1, exc_bind_ok, e2, exc_bind_ok, e3, exc_bind_ok, e4, exc_bind_ok,
      e5, exc_bind_ok, e6]
  · rw [tt6, tt5, tt4, tt3, tt2]
  · rw [lt6, lt5, lt4, lt3, lt2]
  · rw [wt6, wt5, wt4, wt3, wt2]
  · rw [pnl6, pnl5, pnl4, pnl3, pnl2]
  · rw [ml6, ml5, ml4, ml3, ml2]
  · intro u hu
    simp only [Learn.lossesFor, List.mem_filter, Bool.and_eq_true] at hu
    rcases hu with ⟨-, -, hcond⟩
    rcases hur : u.result with _ | r
    · rw [hur] at hcond
      cases hcond
    · rw [hur] at hcond
      simp only [decide_eq_true_eq] at hcond
      exact ⟨r, rfl, hcond⟩
  · have hlt3 : s3.losing_trades = some (l + 1) := by rw [lt3, lt2]
    have := hal4 (l + 1) hlt3
    rw [al6, al5, this, if_pos (by omega : (0:ℤ) < l + 1), al3, al2]

/-- Witness for C10: a single zero-result (ES, 1m) trade processed on a
default-valued statistics row leaves `avg_loss` at 0 while
`losing_trades` becomes positive. -/
theorem zero_result_statistics_witness :
    populatedStat (Learn.defaultStatistic "ES" "1m") ∧
    ((esTrade 9 0).result = Option.none ∨ (esTrade 9 0).result = some 0) ∧
    ∃ s', Learn.updateStatistics [esTrade 9 0] (Learn.defaultStatistic "ES" "1m")
        (esTrade 9 0) = .ok s' ∧
      s'.total_trades = some 1 ∧ s'.losing_trades = some 1 ∧
      s'.winning_trades = some 0 ∧ s'.total_pnl = some 0 ∧
      s'.max_loss = some 0 ∧ s'.avg_loss = some 0 := by
  have hp : populatedStat (Learn.defaultStatistic "ES" "1m") := by
    simp [populatedStat, Learn.defaultStatistic]
  obtain ⟨s', he, ht', hl', hw', hpnl', hml', -, hal'⟩ :=
    zero_result_statistics [esTrade 9 0] (Learn.defaultStatistic "ES" "1m")
      (esTrade 9 0) hp (Or.inr rfl) 0 0 rfl rfl le_rfl
  have hE : (Learn.lossesFor [esTrade 9 0] (esTrade 9 0).symbol).isEmpty = true := by
    decide
  simp only [hE, if_true] at hal'
  refine ⟨hp, Or.inr rfl, s', he, by simpa using ht', by simpa using hl',
    by rw [hw']; rfl, by rw [hpnl']; rfl, by rw [hml']; rfl, by rw [hal']; rfl⟩

/-! ## Learning pipeline: orchestration (`record_trade`, `execute_learning`) -/

namespace Learn

/-- Embedding of `LearningPipeline.record_trade` (learning.py lines 42-89):
insert one Trade row (with `result_percent` derived from entry/exit when the
entry price is truthy) and one learning-queue row in the default `PENDING`
state referencing it, returning the new internal id.  The internal UUIDs
generated by the database layer are passed in as `newTradeRowId` /
`newQueueRowId`; non-string `symbol`/`timeframe`/`direction` context values
are rejected at the INSERT into the string-typed columns. -/
def recordTrade (tradeId : String) (entry exitPrice result : ℚ)
    (ctx : List (String × Py.Val)) (newTradeRowId newQueueRowId : String)
    (db : DB) : Except String (String × DB) :=
  match Py.getD ctx "symbol" (.str "UNKNOWN"), Py.getD ctx "timeframe" (.str "1m"),
      Py.getD ctx "direction" (.str "LONG") with
  | .str sym, .str tf, .str dir =>
    let row : TradeRow :=
      { id := newTradeRowId, trade_id := tradeId, symbol := sym, timeframe := tf,
        direction := dir, entry_price := entry, exit_price := exitPrice,
        result := some result,
        result_percent := if entry ≠ 0 then (exitPrice - entry) / entry * 100 else 0,
        market_context := Py.getD ctx "market_context_at_entry" (.dict []),
        trade_context := .dict ctx, critique := .none, extracted_rules := [],
        learning_processed := false }
    let q : QueueRow :=
      { id := newQueueRowId, trade_id := newTradeRowId, status := "PENDING",
        attempts := 0, last_error := Option.none }
    .ok (newTradeRowId,
      { db with trades := db.trades ++ [row], queue := db.queue ++ [q] })
  | _, _, _ => .error "TypeError: non-string context value at INSERT"

/-- Embedding of `LearningPipeline._create_trade_summary`: the deterministic
text summary (field order as in the source; whitespace layout and the
json-indented context blocks are abbreviated — no theorem depends on the
rendering). -/
def createTradeSummary (t : TradeRow) : String :=
  let resultType := if pyResultIsWin t.result then "WIN" else "LOSS"
  "Trade Summary: " ++ t.symbol ++ " " ++ t.timeframe ++ " " ++ t.direction ++
    " entry " ++ toString t.entry_price ++ " exit " ++ toString t.exit_price ++
    " result " ++
    (match t.result with
     | some r => toString r
     | Option.none => "None") ++
    " (" ++ resultType ++ ") " ++ Py.pyStr t.market_context ++ " " ++
    Py.pyStr t.trade_context

/-- One learning run's external-service outcomes: the critic LLM's JSON and
plain-text completions, the rule-extraction completion (a function of the
critique dict embedded in its prompt), and the collapsed outcome of the
embedding/vector-store upserts of `_store_in_memory` and of the final
session commit.  Raising calls are `error`. -/
structure Env where
  critJson : Except String Py.Val
  critText : Except String String
  extrJson : Py.Val → Except String Py.Val
  storeMem : Except String Unit
  commitMain : Except String Unit

/-- The critique dict `_critique_trade` builds when the critic's JSON
response fails: raw text as `summary`, empty lists, neutral score 0.5. -/
def fallbackCritique (t : String) : Py.Val :=
  .dict [("summary", .str t), ("what_went_well", .list []),
         ("what_went_wrong", .list []), ("lessons_learned", .list []),
         ("overall_score", .float (1/2))]

/-- Embedding of `LearningPipeline._critique_trade` (learning.py lines
185-213): return the critic's JSON response; on its failure fall back to a
plain-text completion wrapped in `fallbackCritique` (a failure of the text
completion itself propagates). -/
def critiqueTrade (env : Env) (summary : String) : Except String Py.Val :=
  match summary, env.critJson with
  | _, .ok v => .ok v
  | _, .error _ => do
    let t ← env.critText
    pure (fallbackCritique t)

/-- Embedding of `LearningPipeline._extract_rules`: take `rules` from the
extraction response, forcing non-lists to `[]`; any exception (transport,
parse, or `.get` on a non-dict response) yields `[]`. -/
def extractRules (env : Env) (critique : Py.Val) : List Py.Val :=
  match (do
    let v ← env.extrJson critique
    Py.getAttrD v "rules" (.list [])) with
  | .ok (.list rs) => rs
  | .ok _ => []
  | .error _ => []

/-- SQLAlchemy `Result.scalar_one_or_none()`: `none` on no row, the row if
unique, `MultipleResultsFound` otherwise. -/
def scalarOneOrNone {α : Type} (l : List α) : Except String (Option α) :=
  match l with
  | [] => .ok Option.none
  | [a] => .ok (some a)
  | _ => .error "MultipleResultsFound"

/-- Embedding of `LearningPipeline._store_rules`: one Rule row per
extracted rule dict with truthy `rule_text` (rule ids are generated; the
random uuid suffix is modelled by the list index). -/
def ruleRowsOf (tradeRowId : String) : List Py.Val → ℕ → Except String (List RuleRow)
  | [], _ => .ok []
  | rd :: rest, i => do
    let rtext ← Py.getAttrD rd "rule_text" (.str "")
    if Py.truthy rtext then do
      let rtype ← Py.getAttrD rd "rule_type" (.str "PATTERN")
      let conf ← Py.getAttrD rd "confidence" (.float (1/2))
      let tl ← ruleRowsOf tradeRowId rest (i + 1)
      pure ({ rule_id := "rule_" ++ tradeRowId ++ "_" ++ toString i,
              rule_text := rtext, rule_type := rtype, confidence := conf,
              source_trade_id := tradeRowId, is_active := true } :: tl)
    else
      ruleRowsOf tradeRowId rest (i + 1)

/-- The `_update_statistics` entry: get-or-create the (symbol, timeframe)
statistics row, run the update blocks, and write the row back (appended
when freshly created). -/
def updateStatsList (db : DB) (t : TradeRow) : Except String (List StatRow) := do
  let sOpt ← scalarOneOrNone (db.stats.filter
    (fun s => s.symbol == t.symbol && s.timeframe == t.timeframe))
  match sOpt with
  | some s0 => do
    let st ← updateStatistics db.trades s0 t
    pure (db.stats.map (fun s1 =>
      if s1.symbol == t.symbol && s1.timeframe == t.timeframe then st else s1))
  | Option.none => do
    let st ← updateStatistics db.trades (freshStatistic t.symbol t.timeframe) t
    pure (db.stats ++ [st])

/-- The `try`-block of `LearningPipeline.execute_learning` (learning.py
lines 98-145): load the trade (benign no-op when absent), critique,
extract rules, store memories, persist critique and rules, update
statistics, mark the queue item COMPLETED, commit.  Any raising step makes
the whole body an `error` (and the session context manager discards the
uncommitted changes). -/
def executeLearningBody (env : Env) (tid : String) (db : DB) : Except String DB := do
  let tOpt ← scalarOneOrNone (db.trades.filter (fun t => t.id == tid))
  match tOpt with
  | Option.none => pure db
  | some trade => do
    let summary := createTradeSummary trade
    let critique ← critiqueTrade env summary
    let rules := extractRules env critique
    let _ ← env.storeMem
    let csum ← Py.getAttrD critique "summary" (.str "")
    let trade' := { trade with
                    critique := csum
                    extracted_rules := rules
                    learning_processed := true }
    let db1 := { db with trades := db.trades.map (fun (t : TradeRow) =>
      if t.id == tid then trade' else t) }
    let newRules ← ruleRowsOf trade'.id rules 0
    let db2 := { db1 with rules := db1.rules ++ newRules }
    let newStats ← updateStatsList db2 trade'
    let db3 := { db2 with stats := newStats }
    let qOpt ← scalarOneOrNone (db3.queue.filter (fun q => q.trade_id == tid))
    let db4 :=
      match qOpt with
      | some _ => { db3 with queue := db3.queue.map (fun (q : QueueRow) =>
          if q.trade_id == tid then { q with status := "COMPLETED" } else q) }
      | Option.none => db3
    let _ ← env.commitMain
    pure db4

/-- Embedding of `LearningPipeline.execute_learning` (learning.py lines
91-161): run the body; on any exception, look the queue item up in a fresh
session over the unchanged ledger and mark it FAILED with the error text
and an incremented attempt counter, re-raising nothing. -/
def executeLearning (env : Env) (tid : String) (db : DB) : Except String DB :=
  match executeLearningBody env tid db with
  | .ok db' => .ok db'
  | .error e => do
    let qOpt ← scalarOneOrNone (db.queue.filter (fun q => q.trade_id == tid))
    match qOpt with
    | some _ => pure { db with queue := db.queue.map (fun (q : QueueRow) =>
        if q.trade_id == tid then
          { q with
            status := "FAILED"
            last_error := some e
            attempts := q.attempts + 1 }
        else q) }
    | Option.none => pure db

end Learn

/-- C8: `record_trade` creates exactly one Trade row — with `result_percent`
equal to `(exit - entry) / entry * 100` when the entry price is nonzero and
`0` otherwise — plus exactly one learning-queue row in status `PENDING`
referencing that trade, and returns the new internal trade id. -/
theorem record_trade_spec (tradeId : String) (entry exitPrice result : ℚ)
    (ctx : List (String × Py.Val)) (nid qid : String) (db : Learn.DB)
    (hsym : ∃ s, Py.getD ctx "symbol" (.str "UNKNOWN") = .str s)
    (htf : ∃ s, Py.getD ctx "timeframe" (.str "1m") = .str s)
    (hdir : ∃ s, Py.getD ctx "direction" (.str "LONG") = .str s) :
    ∃ row : Learn.TradeRow,
      Learn.recordTrade tradeId entry exitPrice result ctx nid qid db =
        .ok (nid, { db with
          trades := db.trades ++ [row]
          queue := db.queue ++ [{
            id := qid
            trade_id := nid
            status := "PENDING"
            attempts := 0
            last_error := Option.none }] }) ∧
      row.id = nid ∧ row.trade_id = tradeId ∧
      row.entry_price = entry ∧ row.exit_price = exitPrice ∧
      row.result = some result ∧
      row.result_percent =
        (if entry ≠ 0 then (exitPrice - entry) / entry * 100 else 0) := by
  obtain ⟨s1, h1⟩ := hsym
  obtain ⟨s2, h2⟩ := htf
  obtain ⟨s3, h3⟩ := hdir
  refine ⟨{
    id := nid
    trade_id := tradeId
    symbol := s1
    timeframe := s2
    direction := s3
    entry_price := entry
    exit_price := exitPrice
    result := some result
    result_percent := if entry ≠ 0 then (exitPrice - entry) / entry * 100 else 0
    market_context := Py.getD ctx "market_context_at_entry" (.dict [])
    trade_context := .dict ctx
    critique := .none
    extracted_rules := []
    learning_processed := false }, ?_, rfl, rfl, rfl, rfl, rfl, rfl⟩
  simp only [Learn.recordTrade, h1, h2, h3]

/-- The end-to-end scenario's context dict. -/
def ctxES : List (String × Py.Val) :=
  [("symbol", Py.Val.str "ES"), ("timeframe", Py.Val.str "1m"),
   ("direction", Py.Val.str "LONG")]

/-- The empty ledger. -/
def dbEmpty : Learn.DB := { trades := [], rules := [], stats := [], queue := [] }

/-- Witness for C8 at the spec's scenario `record_trade("T1", entry=100,
exit=105, result=5, context={symbol: ES, timeframe: 1m, direction: LONG})`:
the created trade has `result_percent = 5` and the queue row is PENDING. -/
theorem record_trade_spec_witness :
    (∃ s, Py.getD ctxES "symbol" (.str "UNKNOWN") = .str s) ∧
    (∃ s, Py.getD ctxES "timeframe" (.str "1m") = .str s) ∧
    (∃ s, Py.getD ctxES "direction" (.str "LONG") = .str s) ∧
    ∃ row : Learn.TradeRow,
      Learn.recordTrade "T1" 100 105 5 ctxES "uuid-t" "uuid-q" dbEmpty =
        .ok ("uuid-t", { dbEmpty with
          trades := [row]
          queue := [{
            id := "uuid-q"
            trade_id := "uuid-t"
            status := "PENDING"
            attempts := 0
            last_error := Option.none }] }) ∧
      row.result = some 5 ∧ row.result_percent = 5 := by
  have hsym : ∃ s, Py.getD ctxES "symbol" (.str "UNKNOWN") = .str s := ⟨"ES", rfl⟩
  have htf : ∃ s, Py.getD ctxES "timeframe" (.str "1m") = .str s := ⟨"1m", rfl⟩
  have hdir : ∃ s, Py.getD ctxES "direction" (.str "LONG") = .str s := ⟨"LONG", rfl⟩
  obtain ⟨row, heq, -, -, -, -, hres, hrp⟩ :=
    record_trade_spec "T1" 100 105 5 ctxES "uuid-t" "uuid-q" dbEmpty hsym htf hdir
  refine ⟨hsym, htf, hdir, row, ?_, hres, ?_⟩
  · simpa [dbEmpty] using heq
  · rw [hrp]
    norm_num

theorem scalarOneOrNone_of_len_le_one {α : Type} (l : List α) (h : l.length ≤ 1) :
    (l = [] ∧ Learn.scalarOneOrNone l = .ok Option.none) ∨
      ∃ a, l = [a] ∧ Learn.scalarOneOrNone l = .ok (some a) := by
  match l with
  | [] => exact Or.inl ⟨rfl, rfl⟩
  | [a] => exact Or.inr ⟨a, rfl, rfl⟩
  | a :: b :: t => simp at h

theorem map_update_eq_self {α : Type} (p : α → Bool) (f : α → α) (l : List α)
    (h : ∀ x ∈ l, ¬ p x = true) :
    l.map (fun x => if p x then f x else x) = l := by
  induction l with
  | nil => rfl
  | cons a t ih =>
    have ha : ¬ p a = true := h a (List.mem_cons_self a t)
    simp only [List.map_cons, if_neg ha]
    rw [ih (fun x hx => h x (List.mem_cons_of_mem a hx))]

/-- C5: `execute_learning` never raises to its caller (given the data-model
invariant of at most one queue item per trade): an unresolvable trade id is
a benign no-op returning the ledger unchanged, and any exception in the
pipeline body results in the queue item being marked FAILED with the
exception text in `last_error` and `attempts` incremented by one, with
nothing re-raised. -/
theorem execute_learning_failure_semantics (env : Learn.Env) (tid : String)
    (db : Learn.DB)
    (h : (db.queue.filter (fun q => q.trade_id == tid)).length ≤ 1) :
    (∃ db', Learn.executeLearning env tid db = .ok db') ∧
    (db.trades.filter (fun t => t.id == tid) = [] →
      Learn.executeLearning env tid db = .ok db) ∧
    (∀ e, Learn.executeLearningBody env tid db = .error e →
      Learn.executeLearning env tid db = .ok
        { db with queue := db.queue.map (fun (q : Learn.QueueRow) =>
            if q.trade_id == tid then
              { q with
                status := "FAILED"
                last_error := some e
                attempts := q.attempts + 1 }
            else q) }) := by
  have hfail : ∀ e, Learn.executeLearningBody env tid db = .error e →
      Learn.executeLearning env tid db = .ok
        { db with queue := db.queue.map (fun (q : Learn.QueueRow) =>
            if q.trade_id == tid then
              { q with
                status := "FAILED"
                last_error := some e
                attempts := q.attempts + 1 }
            else q) } := by
    intro e he
    simp only [Learn.executeLearning, he]
    rcases scalarOneOrNone_of_len_le_one _ h with ⟨hnil, hs⟩ | ⟨q0, hone, hs⟩
    · rw [hs, exc_bind_ok]
      have hid : db.queue.map (fun (q : Learn.QueueRow) =>
          if q.trade_id == tid then
            { q with
              status := "FAILED"
              last_error := some e
              attempts := q.attempts + 1 }
          else q) = db.queue := by
        apply map_update_eq_self
        intro x hx
        have := List.filter_eq_nil_iff.mp hnil x hx
        simpa using this
      rw [hid]
      rfl
    · rw [hs, exc_bind_ok]
      rfl
  refine ⟨?_, ?_, hfail⟩
  · rcases hbody : Learn.executeLearningBody env tid db with e | db'
    · exact ⟨_, hfail e hbody⟩
    · exact ⟨db', by simp only [Learn.executeLearning, hbody]⟩
  · intro hnf
    have hbody0 : Learn.executeLearningBody env tid db = .ok db := by
      simp only [Learn.executeLearningBody, hnf, Learn.scalarOneOrNone,
        exc_bind_ok, exc_pure]
    simp only [Learn.executeLearning, hbody0]

/-- An environment in which the critic LLM raises on both the JSON and the
plain-text completion, so the critique step propagates an exception. -/
def envFail : Learn.Env :=
  { critJson := .error "boom", critText := .error "llm down",
    extrJson := fun _ => .error "unused", storeMem := .ok (),
    commitMain := .ok () }

/-- A ledger holding one recorded (ES, 1m) trade and its PENDING queue item. -/
def dbOne : Learn.DB :=
  { trades := [esTrade 1 10], rules := [], stats := [],
    queue := [{ id := "q1", trade_id := "t1", status := "PENDING",
                attempts := 0, last_error := Option.none }] }

/-- Witness for C5: with the critic down, `execute_learning` returns
normally and the queue item is FAILED with the error text and one more
attempt. -/
theorem execute_learning_failure_semantics_witness :
    (dbOne.queue.filter (fun q => q.trade_id == "t1")).length ≤ 1 ∧
    Learn.executeLearningBody envFail "t1" dbOne = .error "llm down" ∧
    Learn.executeLearning envFail "t1" dbOne = .ok { dbOne with
      queue := [{ id := "q1", trade_id := "t1", status := "FAILED",
                  attempts := 1, last_error := some "llm down" }] } := by
  have h1 : (dbOne.queue.filter (fun q => q.trade_id == "t1")).length ≤ 1 := by
    decide
  have h2 : Learn.executeLearningBody envFail "t1" dbOne = .error "llm down" := rfl
  have h3 := (execute_learning_failure_semantics envFail "t1" dbOne h1).2.2
    "llm down" h2
  refine ⟨h1, h2, ?_⟩
  rw [h3]
  rfl

theorem exc_bind_ok_inv {α β : Type} {e : Except String α}
    {f : α → Except String β} {b : β} (h : (e >>= f) = .ok b) :
    ∃ a, e = .ok a ∧ f a = .ok b := by
  cases e with
  | error er => cases h
  | ok a => exact ⟨a, rfl, h⟩

/-- C9: when the critic's JSON completion fails, `_critique_trade` returns
the fallback critique — raw text as `summary`, empty lists, overall score
0.5 — and `execute_learning` proceeds to rule extraction with that
critique: on a successful run the trade row carries the raw text as its
critique and the rules extracted from the fallback critique. -/
theorem critique_fallback_proceeds (env : Learn.Env) (tid : String)
    (db : Learn.DB) (trade : Learn.TradeRow) (e0 t : String)
    (h1 : env.critJson = .error e0) (h2 : env.critText = .ok t)
    (h3 : db.trades.filter (fun x => x.id == tid) = [trade]) :
    (∀ s, Learn.critiqueTrade env s = .ok (Learn.fallbackCritique t)) ∧
    (∀ db', Learn.executeLearningBody env tid db = .ok db' →
      ∃ row, row ∈ db'.trades ∧ row.id = trade.id ∧
        row.critique = .str t ∧
        row.extracted_rules = Learn.extractRules env (Learn.fallbackCritique t)) := by
  have hct : ∀ s, Learn.critiqueTrade env s = .ok (Learn.fallbackCritique t) := by
    intro s
    simp [Learn.critiqueTrade, h1, h2, exc_bind_ok, exc_pure]
  refine ⟨hct, ?_⟩
  intro db' hok
  have htmem : trade ∈ db.trades ∧ (trade.id == tid) = true := by
    have : trade ∈ db.trades.filter (fun x => x.id == tid) := by
      rw [h3]
      exact List.mem_singleton.mpr rfl
    exact List.mem_filter.mp this
  simp only [Learn.executeLearningBody] at hok
  rw [h3] at hok
  simp only [Learn.scalarOneOrNone, exc_bind_ok] at hok
  rw [hct] at hok
  simp only [exc_bind_ok] at hok
  rcases hsm : env.storeMem with es | u
  · rw [hsm] at hok
    simp only [exc_bind_err] at hok
    cases hok
  rw [hsm] at hok
  simp only [exc_bind_ok] at hok
  have hcs : Py.getAttrD (Learn.fallbackCritique t) "summary" (.str "") =
      .ok (.str t) := by
    simp [Learn.fallbackCritique, Py.getAttrD, Py.getD, Py.lookupAssoc]
  rw [hcs] at hok
  simp only [exc_bind_ok] at hok
  obtain ⟨newRules, -, hok⟩ := exc_bind_ok_inv hok
  obtain ⟨newStats, -, hok⟩ := exc_bind_ok_inv hok
  obtain ⟨qOpt, -, hok⟩ := exc_bind_ok_inv hok
  obtain ⟨u2, -, hok⟩ := exc_bind_ok_inv hok
  rw [exc_pure] at hok
  cases hok
  rcases qOpt with _ | q0 <;>
    exact ⟨{ trade with
             critique := Py.Val.str t
             extracted_rules := Learn.extractRules env (Learn.fallbackCritique t)
             learning_processed := true },
      List.mem_map.mpr ⟨trade, htmem.1, by rw [if_pos htmem.2]⟩, rfl, rfl, rfl⟩

/-- A recorded (ES, 1m) trade with no result value. -/
def esTradeNone : Learn.TradeRow :=
  { id := "t1", trade_id := "T1", symbol := "ES", timeframe := "1m",
    direction := "LONG", entry_price := 100, exit_price := 100,
    result := Option.none, result_percent := 0, market_context := .dict [],
    trade_context := .dict [], critique := .none, extracted_rules := [],
    learning_processed := false }

/-- An environment where only the critic's JSON completion fails: the text
completion, rule extraction, memory storage and commit all succeed. -/
def envFallback : Learn.Env :=
  { critJson := .error "bad json", critText := .ok "raw critique",
    extrJson := fun _ => .ok (.dict [("rules", .list [])]),
    storeMem := .ok (), commitMain := .ok () }

/-- A ledger with the trade, its PENDING queue item, and a default-valued
(ES, 1m) statistics row. -/
def dbTwo : Learn.DB :=
  { trades := [esTradeNone], rules := [],
    stats := [Learn.defaultStatistic "ES" "1m"],
    queue := [{ id := "q1", trade_id := "t1", status := "PENDING",
                attempts := 0, last_error := Option.none }] }

/-- The ledger after the successful learning run of `dbTwo`'s trade under
`envFallback`. -/
def dbTwoAfter : Learn.DB :=
  { trades := [{ esTradeNone with
                 critique := .str "raw critique"
                 extracted_rules := []
                 learning_processed := true }],
    rules := [],
    stats := [{ Learn.defaultStatistic "ES" "1m" with
                total_trades := some 1
                losing_trades := some 1
                win_rate := some 0 }],
    queue := [{ id := "q1", trade_id := "t1", status := "COMPLETED",
                attempts := 0, last_error := Option.none }] }

/-- Witness for C9: with the critic's JSON failing and everything else
healthy, the learning run completes and the trade row carries the raw text
critique and the rules extracted from the fallback critique. -/
theorem critique_fallback_proceeds_witness :
    envFallback.critJson = .error "bad json" ∧
    envFallback.critText = .ok "raw critique" ∧
    dbTwo.trades.filter (fun x => x.id == "t1") = [esTradeNone] ∧
    ∃ db' row, Learn.executeLearningBody envFallback "t1" dbTwo = .ok db' ∧
      row ∈ db'.trades ∧ row.id = esTradeNone.id ∧
      row.critique = .str "raw critique" ∧
      row.extracted_rules =
        Learn.extractRules envFallback (Learn.fallbackCritique "raw critique") := by
  have h1 : envFallback.critJson = .error "bad json" := rfl
  have h2 : envFallback.critText = .ok "raw critique" := rfl
  have h3 : dbTwo.trades.filter (fun x => x.id == "t1") = [esTradeNone] := by
    simp [dbTwo, esTradeNone]
  have hok : Learn.executeLearningBody envFallback "t1" dbTwo = .ok dbTwoAfter := by
    norm_num [Learn.executeLearningBody, Learn.critiqueTrade, Learn.fallbackCritique,
      Learn.extractRules, Learn.scalarOneOrNone, Learn.ruleRowsOf,
      Learn.updateStatsList, Learn.updateStatistics, Learn.statOutcome,
      Learn.statWinRate, Learn.statAvgWin, Learn.statAvgLoss,
      Learn.statProfitFactor, Learn.statExpectancy, Learn.pyAddOptZ,
      Learn.pyAddOptQ, Learn.pyLtOpt, Learn.pyGtOpt, Learn.obtZ, Learn.obtQ,
      Learn.truthyQ, Learn.pyResultIsWin, Learn.winsFor, Learn.lossesFor,
      Learn.meanResult, Learn.defaultStatistic, Learn.freshStatistic,
      Py.getAttrD, Py.getD, Py.lookupAssoc, Py.truthy, envFallback, dbTwo,
      dbTwoAfter, esTradeNone, exc_bind_ok, exc_bind_err, exc_pure]
  obtain ⟨row, hmem, hid, hcrit, hrules⟩ :=
    (critique_fallback_proceeds envFallback "t1" dbTwo esTradeNone
      "bad json" "raw critique" h1 h2 h3).2 dbTwoAfter hok
  exact ⟨h1, h2, h3, dbTwoAfter, row, hok, hmem, hid, hcrit, hrules⟩
